import Mathlib

/-!
# Verification of the fletcher agent lifecycle manager

Shallow embedding of the two `AgentManager` variants of the repository
(`agent_manager/manager.py`, supporting tmux sessions and Docker containers,
and `fletcher/manager.py`, Docker-only) together with their record store
(`store.py`), host/docker probes (`utils.py`, `docker_utils.py`) and the two
runtime backends (`process.py`, `container_process.py`).

External state (alive host processes, tmux sessions, docker containers,
directories on disk, the SQLite row list) is carried in an explicit `Sys`
record; the Python methods become state-passing functions.  Exceptions are
`Except Err`; operations whose Python code mutates state before raising
return `Except Err α × Sys` so that partial effects of a failing call are
observable.
-/

namespace Fletcher

/-- The Python value held in the `pid` column of the store: the session
backend stores an integer process id, the container backend stores the
container-id string (`manager.py` line 89: container ID as "pid"). -/
inductive PidVal where
  | int (n : Int)
  | str (s : String)
deriving DecidableEq, Repr

/-- Python truthiness of `agent['pid']` (`None`, `0` and `""` are falsy). -/
def pidTruthy : Option PidVal → Bool
  | none => false
  | some (.int n) => n != 0
  | some (.str s) => s != ""

/-- The status strings actually used by the code:
`spawning`, `running`, `stopped`, `error`. -/
inductive Status where
  | spawning
  | running
  | stopped
  | error
deriving DecidableEq, Repr

/-- The error taxonomy as realized by the code: `ValueError("Agent not found…")`
becomes `notFound`, `ValueError("Invalid repository URL…")` becomes `valueErr`
(the spec's ValidationError), `RuntimeError` becomes `runtimeErr` (the spec's
SpawnError / StaleAgentError / BackendUnavailableError), and the store's
duplicate-key `IntegrityError` becomes `duplicateId`. -/
inductive Err where
  | notFound (id : String)
  | runtimeErr (msg : String)
  | valueErr (msg : String)
  | duplicateId (id : String)
deriving DecidableEq, Repr

/-- The message text carried by an error, used when `spawn` wraps a cause. -/
def Err.message : Err → String
  | .notFound i => "Agent not found: " ++ i
  | .runtimeErr m => m
  | .valueErr m => m
  | .duplicateId i => "UNIQUE constraint failed: agents.id: " ++ i

/-- One row of the `agents` table (`store.py`). -/
structure AgentRecord where
  id : String
  repo_url : String
  working_dir : String
  pid : Option PidVal
  status : Status
  container_mode : Bool
  created_at : Nat
  updated_at : Nat
deriving DecidableEq, Repr

/-- Replace the `status` field only (the in-memory dict mutation
`agent['status'] = 'stopped'` does not refresh `updated_at`). -/
def withStatus (a : AgentRecord) (s : Status) : AgentRecord :=
  AgentRecord.mk a.id a.repo_url a.working_dir a.pid s a.container_mode a.created_at a.updated_at

/-- Refresh `updated_at`, as `store.update_agent` does on every mutation. -/
def touch (a : AgentRecord) (now : Nat) : AgentRecord :=
  AgentRecord.mk a.id a.repo_url a.working_dir a.pid a.status a.container_mode a.created_at now

/-- Replace `pid` and `status` together (`store.update_agent(id, pid=…, status=…)`). -/
def withPidStatus (a : AgentRecord) (p : Option PidVal) (s : Status) : AgentRecord :=
  AgentRecord.mk a.id a.repo_url a.working_dir p s a.container_mode a.created_at a.updated_at

/-- `store.get_agent`: `SELECT * FROM agents WHERE id = ?`, first row. -/
def storeGet : List AgentRecord → String → Option AgentRecord
  | [], _ => none
  | a :: rest, i => if a.id = i then some a else storeGet rest i

/-- `store.update_agent(id, status=s)`: updates every row with the id and
refreshes `updated_at`. -/
def storeSetStatus : List AgentRecord → String → Status → Nat → List AgentRecord
  | [], _, _, _ => []
  | a :: rest, i, s, now =>
    (if a.id = i then touch (withStatus a s) now else a) :: storeSetStatus rest i s now

/-- `store.update_agent(id, pid=p, status=s)`. -/
def storeSetPidStatus : List AgentRecord → String → Option PidVal → Status → Nat → List AgentRecord
  | [], _, _, _, _ => []
  | a :: rest, i, p, s, now =>
    (if a.id = i then touch (withPidStatus a p s) now else a) :: storeSetPidStatus rest i p s now

/-- `store.delete_agent`: `DELETE FROM agents WHERE id = ?`. -/
def storeDelete : List AgentRecord → String → List AgentRecord
  | [], _ => []
  | a :: rest, i => if a.id = i then storeDelete rest i else a :: storeDelete rest i

/-- `store.list_agents(status)`: exact-match filter on `status`
(the rows, newest first, in store order). -/
def storeList : List AgentRecord → Option Status → List AgentRecord
  | st, none => st
  | [], some _ => []
  | a :: rest, some s => if a.status = s then a :: storeList rest (some s) else storeList rest (some s)

/-- `store.create_agent`: `INSERT` fails on a duplicate primary key. -/
def storeCreate (st : List AgentRecord) (i repo wd : String) (status : Status)
    (container_mode : Bool) (now : Nat) : Option (List AgentRecord) :=
  match storeGet st i with
  | some _ => none
  | none => some (AgentRecord.mk i repo wd none status container_mode now now :: st)

/-- One Docker container: name, container id, running flag.  Containers are
created with `--rm`, but `stop`/`remove` model the two docker commands
separately. -/
structure Container where
  name : String
  cid : String
  running : Bool
deriving DecidableEq, Repr

/-- The external world plus the store: directories on disk, live tmux
sessions, docker containers, alive host process ids, and two flags modelling
a failing `docker ps` / `docker inspect` invocation. -/
structure Sys where
  store : List AgentRecord
  dirs : List String
  tmux : List String
  containers : List Container
  procs : List Int
  psFails : Bool
  inspectFails : Bool
deriving DecidableEq, Repr

/-- A container reference matches by name or by container id
(docker commands accept either). -/
def ctMatch (c : Container) (ref : String) : Prop :=
  c.name = ref ∨ c.cid = ref

instance (c : Container) (ref : String) : Decidable (ctMatch c ref) := by
  unfold ctMatch; infer_instance

/-- First container matching a reference. -/
def ctFind : List Container → String → Option Container
  | [], _ => none
  | c :: rest, ref => if ctMatch c ref then some c else ctFind rest ref

/-- Remove every container matching a reference (`docker rm`). -/
def ctRemove : List Container → String → List Container
  | [], _ => []
  | c :: rest, ref => if ctMatch c ref then ctRemove rest ref else c :: ctRemove rest ref

/-- Clear the running flag of every container matching a reference
(`docker stop`). -/
def ctStop : List Container → String → List Container
  | [], _ => []
  | c :: rest, ref =>
    (if ctMatch c ref then Container.mk c.name c.cid false else c) :: ctStop rest ref

/-- First container with exactly this name (`docker ps --filter name=`). -/
def ctFindName : List Container → String → Option Container
  | [], _ => none
  | c :: rest, n => if c.name = n then some c else ctFindName rest n

/-- Remove a path from the set of existing directories (`shutil.rmtree`). -/
def dirRemove : List String → String → List String
  | [], _ => []
  | d :: rest, p => if d = p then dirRemove rest p else d :: dirRemove rest p

/-- `Path.mkdir(parents=True, exist_ok=True)`. -/
def dirAdd (l : List String) (p : String) : List String :=
  if p ∈ l then l else p :: l

/-- Remove a tmux session name (`tmux kill-session`, `check=False`). -/
def tmuxKill : List String → String → List String
  | [], _ => []
  | s :: rest, n => if s = n then tmuxKill rest n else s :: tmuxKill rest n

/-- `f"agent-{agent_id}"`: the tmux session name and container name both
derive deterministically from the agent id. -/
def sessionName (agent_id : String) : String :=
  "agent-" ++ agent_id

/-- `utils.get_agent_working_dir`: the per-agent clone directory. -/
def get_agent_working_dir (agent_id : String) : String :=
  ".agents/" ++ agent_id

/-- Python's `str.startswith`, modelled on the character list (the builtin
`String.startsWith` does not reduce inside the kernel). -/
def pyStartsWith (s p : String) : Bool :=
  List.isPrefixOf p.data s.data

/-- `utils.validate_repo_url`: accepts exactly the four git URL prefixes. -/
def validate_repo_url (repo_url : String) : Bool :=
  pyStartsWith repo_url "http://" || pyStartsWith repo_url "https://" ||
    pyStartsWith repo_url "git@" || pyStartsWith repo_url "git://"

/-- `utils.is_process_running`: `os.kill(pid, 0)`.  A missing process raises
`OSError` and a non-integer value raises `TypeError`; both are caught and
reported as `False`. -/
def is_process_running (sys : Sys) (p : PidVal) : Bool :=
  match p with
  | .int n => sys.procs.contains n
  | .str _ => false

/-- `utils.terminate_process`: SIGTERM; modelled as the process dying. -/
def terminate_process (sys : Sys) (p : PidVal) : Sys :=
  match p with
  | .int n => Sys.mk sys.store sys.dirs sys.tmux sys.containers
      (sys.procs.filter (fun m => m != n)) sys.psFails sys.inspectFails
  | .str _ => sys

/-- `docker_utils.container_exists`: `docker ps -a --filter name=…`; a failing
docker invocation raises `CalledProcessError`, caught and reported as `False`. -/
def container_exists (sys : Sys) (container_name : String) : Bool :=
  if sys.psFails then false else (ctFindName sys.containers container_name).isSome

/-- `docker_utils.get_container_info`: `docker inspect`; returns the `State.Running`
flag, or `none` when the container is absent or the inspection fails. -/
def get_container_info (sys : Sys) (ref : String) : Option Bool :=
  if sys.inspectFails then none else (ctFind sys.containers ref).map (fun c => c.running)

/-- `docker_utils.stop_container`: returns `False` (no exception) when the
container is missing or docker reports an error. -/
def stop_container (sys : Sys) (ref : String) : Sys × Bool :=
  match ctFind sys.containers ref with
  | none => (sys, false)
  | some _ =>
    (Sys.mk sys.store sys.dirs sys.tmux (ctStop sys.containers ref) sys.procs
       sys.psFails sys.inspectFails, true)

/-- `docker_utils.remove_container`: `docker rm [-f]`; removing a missing
container (or a running one without `force`) returns `False`, no exception. -/
def remove_container (sys : Sys) (ref : String) (force : Bool) : Sys × Bool :=
  match ctFind sys.containers ref with
  | none => (sys, false)
  | some c =>
    if c.running && !force then (sys, false)
    else
      (Sys.mk sys.store sys.dirs sys.tmux (ctRemove sys.containers ref) sys.procs
         sys.psFails sys.inspectFails, true)

/-- `docker_utils.attach_to_container`: `docker exec -it … /bin/bash`; succeeds
on a running container and raises `RuntimeError` otherwise. -/
def attach_to_container (sys : Sys) (ref : String) : Except Err Unit × Sys :=
  match ctFind sys.containers ref with
  | some c => if c.running then (.ok (), sys) else
      (.error (.runtimeErr "Failed to attach to container"), sys)
  | none => (.error (.runtimeErr "Failed to attach to container"), sys)

/-- Outcomes of the external collaborators that one `spawn` call consumes:
the fresh id, the wall clock, tool availability, and the success or failure
of each fallible external step (git clone, branch creation, tmux commands,
docker image/create/exec) together with the values they produce. -/
structure SpawnEnv where
  agent_id : String
  now : Nat
  cliAvailable : Bool
  cloneOk : Bool
  branchOk : Bool
  tmuxAvailable : Bool
  newSessionOk : Bool
  startKeysOk : Bool
  listPanesOk : Bool
  panePid : Int
  childPid : Option Int
  dockerAvailable : Bool
  dockerRunning : Bool
  imageOk : Bool
  createOk : Bool
  newContainerId : String
  execOk : Bool
deriving DecidableEq, Repr

/-- `ContainerAgentProcess.is_running` (`container_process.py` 177–192):
`False` when neither a container id is held nor a container with the agent's
name exists; otherwise inspects the container and reports its running flag,
with any inspection failure reported as `False`. -/
def ContainerAgentProcess.is_running (sys : Sys) (container_id : Option String)
    (container_name : String) : Bool :=
  if !(container_id.isSome || container_exists sys container_name) then false
  else
    match get_container_info sys (container_id.getD container_name) with
    | none => false
    | some running => running

/-- `ContainerAgentProcess.attach_interactive`: re-finds the container by name
and execs an interactive shell into it (the manager call sites construct the
process object with `container_id = None`). -/
def ContainerAgentProcess.attach_interactive (sys : Sys) (agent_id : String) :
    Except Err Unit × Sys :=
  if container_exists sys (sessionName agent_id) then
    attach_to_container sys (sessionName agent_id)
  else
    (.error (.runtimeErr ("No container found for agent " ++ agent_id)), sys)

/-- `AgentProcess.spawn_interactive` (`process.py` 51–135), the session
backend's start: check tmux, kill any stale session, create the session, send
the keystrokes that start the assistant, then resolve the assistant's pid from
the pane pid and its children.  Failures after session creation raise without
removing the session they created. -/
def AgentProcess.spawn_interactive (sys : Sys) (env : SpawnEnv) (agent_id : String) :
    Except Err PidVal × Sys :=
  if !env.tmuxAvailable then (.error (.runtimeErr "tmux not found"), sys)
  else
    let sn := sessionName agent_id
    let sys1 := Sys.mk sys.store sys.dirs (tmuxKill sys.tmux sn) sys.containers
      sys.procs sys.psFails sys.inspectFails
    if !env.newSessionOk then
      (.error (.runtimeErr "Failed to spawn agent in tmux"), sys1)
    else
      let sys2 := Sys.mk sys1.store sys1.dirs (sn :: sys1.tmux) sys1.containers
        sys1.procs sys1.psFails sys1.inspectFails
      if !env.startKeysOk then
        (.error (.runtimeErr "Failed to spawn agent in tmux"), sys2)
      else if !env.listPanesOk then
        (.error (.runtimeErr "Failed to spawn agent in tmux"), sys2)
      else
        (.ok (.int (env.childPid.getD env.panePid)), sys2)

/-- `ContainerAgentProcess.spawn_interactive` (`container_process.py` 26–85),
the container backend's start: docker preflight, ensure the image, remove a
stale same-named container, create the container, start the assistant inside
it.  A failure after creation removes the created container before raising. -/
def ContainerAgentProcess.spawn_interactive (sys : Sys) (env : SpawnEnv)
    (agent_id : String) : Except Err String × Sys :=
  if !env.dockerAvailable then (.error (.runtimeErr "Docker not found"), sys)
  else if !env.dockerRunning then (.error (.runtimeErr "Docker daemon is not running"), sys)
  else if !env.imageOk then (.error (.runtimeErr "Failed to build agent Docker image"), sys)
  else
    let cn := sessionName agent_id
    let sys1 := if container_exists sys cn then (remove_container sys cn true).1 else sys
    if !env.createOk then
      (.error (.runtimeErr "Failed to spawn agent in container: Failed to create container"), sys1)
    else
      let sys2 := Sys.mk sys1.store sys1.dirs sys1.tmux
        (Container.mk cn env.newContainerId true :: sys1.containers) sys1.procs
        sys1.psFails sys1.inspectFails
      if !env.execOk then
        let sys3 := (remove_container sys2 env.newContainerId true).1
        (.error (.runtimeErr "Failed to spawn agent in container: Failed to start Claude in container"), sys3)
      else
        (.ok env.newContainerId, sys2)

/-- Replace the store component of the world. -/
def Sys.withStore (sys : Sys) (st : List AgentRecord) : Sys :=
  Sys.mk st sys.dirs sys.tmux sys.containers sys.procs sys.psFails sys.inspectFails

/-- Replace the directory set of the world. -/
def Sys.withDirs (sys : Sys) (d : List String) : Sys :=
  Sys.mk sys.store d sys.tmux sys.containers sys.procs sys.psFails sys.inspectFails

/-- Replace the tmux session set of the world. -/
def Sys.withTmux (sys : Sys) (t : List String) : Sys :=
  Sys.mk sys.store sys.dirs t sys.containers sys.procs sys.psFails sys.inspectFails

/-- `self.store.update_agent(agent_id, status='stopped')` guarded by
`if agent['status'] == 'running'`, as the attach paths do. -/
def demoteIfRunning (sys : Sys) (now : Nat) (a : AgentRecord) : Sys :=
  if a.status = .running then sys.withStore (storeSetStatus sys.store a.id .stopped now)
  else sys

/-- The shared `except` block of both `spawn_agent` variants: mark the record
`error`, remove the working directory if it exists, and re-raise the cause
wrapped in `RuntimeError(f"Failed to spawn agent: {e}")`. -/
def spawnFail (sys : Sys) (agent_id wd : String) (now : Nat) (cause : Err) :
    Except Err String × Sys :=
  let sys1 := sys.withStore (storeSetStatus sys.store agent_id .error now)
  let sys2 := sys1.withDirs (dirRemove sys1.dirs wd)
  (.error (.runtimeErr ("Failed to spawn agent: " ++ cause.message)), sys2)

/-- The docker teardown used by every destructive path: when a container with
the agent's name exists, `docker stop` it and `docker rm -f` it. -/
def containerCleanup (sys : Sys) (agent_id : String) : Sys :=
  if container_exists sys (sessionName agent_id) then
    (remove_container (stop_container sys (sessionName agent_id)).1
      (sessionName agent_id) true).1
  else sys

/-- The backend half of `agent_manager`'s `stop_agent`: docker teardown for a
container-mode record; for a session-mode record, kill the tmux session and
SIGTERM the recorded process when it is alive. -/
def stopBackendCleanup (sys : Sys) (agent_id : String) (a : AgentRecord) : Sys :=
  if a.container_mode then containerCleanup sys agent_id
  else
    match a.pid with
    | some p =>
      if pidTruthy a.pid = true ∧
          is_process_running (sys.withTmux (tmuxKill sys.tmux (sessionName agent_id))) p = true then
        terminate_process (sys.withTmux (tmuxKill sys.tmux (sessionName agent_id))) p
      else sys.withTmux (tmuxKill sys.tmux (sessionName agent_id))
    | none => sys.withTmux (tmuxKill sys.tmux (sessionName agent_id))

/-- The loop body shared by both `clean_agents` variants: stop and remove the
container when the docker branch applies, remove the working directory, delete
the record and count it; any exception (modelled at the only step that can
raise, `shutil.rmtree`) is swallowed, leaving that agent partially cleaned and
uncounted. -/
def cleanStep (cm : AgentRecord → Bool) (failP : String → Bool) (acc : Nat × Sys)
    (a : AgentRecord) : Nat × Sys :=
  if cm a = true then
    if failP a.working_dir = true ∧ a.working_dir ∈ (containerCleanup acc.2 a.id).dirs then
      (acc.1, containerCleanup acc.2 a.id)
    else
      (acc.1 + 1,
       ((containerCleanup acc.2 a.id).withDirs
           (dirRemove (containerCleanup acc.2 a.id).dirs a.working_dir)).withStore
         (storeDelete (containerCleanup acc.2 a.id).store a.id))
  else
    if failP a.working_dir = true ∧ a.working_dir ∈ acc.2.dirs then
      (acc.1, acc.2)
    else
      (acc.1 + 1,
       (acc.2.withDirs (dirRemove acc.2.dirs a.working_dir)).withStore
         (storeDelete acc.2.store a.id))

/-- `clean_agents`' iteration over the listed records. -/
def cleanLoop (cm : AgentRecord → Bool) (failP : String → Bool) :
    List AgentRecord → Nat × Sys → Nat × Sys
  | [], acc => acc
  | a :: rest, acc => cleanLoop cm failP rest (cleanStep cm failP acc a)

namespace AM

/-- The per-record reconciliation inlined in `agent_manager`'s
`list_agents`/`get_agent` (`manager.py` 192–197, 213–217): a record that
claims `running` and holds a truthy pid is demoted to `stopped` — in the
store and in the returned dict — when `utils.is_process_running` denies the
pid. -/
def syncRecord (sys : Sys) (now : Nat) (a : AgentRecord) : AgentRecord × Sys :=
  if a.status = .running ∧ pidTruthy a.pid = true then
    match a.pid with
    | some p =>
      if is_process_running sys p then (a, sys)
      else (withStatus a .stopped, sys.withStore (storeSetStatus sys.store a.id .stopped now))
    | none => (a, sys)
  else (a, sys)

/-- `AgentManager.get_agent` (`agent_manager/manager.py` 201–219). -/
def get_agent (sys : Sys) (now : Nat) (agent_id : String) : Option AgentRecord × Sys :=
  match storeGet sys.store agent_id with
  | none => (none, sys)
  | some a =>
    let r := syncRecord sys now a
    (some r.1, r.2)

/-- The reconciliation loop of `AgentManager.list_agents` over the snapshot
returned by the store. -/
def listLoop (now : Nat) : List AgentRecord → Sys → List AgentRecord × Sys
  | [], sys => ([], sys)
  | a :: rest, sys =>
    let r := syncRecord sys now a
    let l := listLoop now rest r.2
    (r.1 :: l.1, l.2)

/-- `AgentManager.list_agents` (`agent_manager/manager.py` 180–199). -/
def list_agents (sys : Sys) (now : Nat) (status : Option Status) :
    List AgentRecord × Sys :=
  listLoop now (storeList sys.store status) sys

/-- `AgentManager.spawn_agent` (`agent_manager/manager.py` 26–108): preflight
CLI check, URL validation, fresh id and working directory, then the guarded
sequence create-record → clone → branch → backend start → update(pid, running),
with the shared failure handler `spawnFail`. -/
def spawn_agent (sys : Sys) (env : SpawnEnv) (repo_url : String)
    (use_container : Bool) : Except Err String × Sys :=
  if !env.cliAvailable then
    (.error (.runtimeErr "Claude Code CLI not found in PATH"), sys)
  else if !(validate_repo_url repo_url) then
    (.error (.valueErr ("Invalid repository URL: " ++ repo_url)), sys)
  else
    match storeCreate (sys.withDirs (dirAdd sys.dirs (get_agent_working_dir env.agent_id))).store
        env.agent_id repo_url (get_agent_working_dir env.agent_id) .spawning use_container env.now with
    | none =>
      spawnFail (sys.withDirs (dirAdd sys.dirs (get_agent_working_dir env.agent_id)))
        env.agent_id (get_agent_working_dir env.agent_id) env.now (.duplicateId env.agent_id)
    | some st1 =>
      if !env.cloneOk then
        spawnFail ((sys.withDirs (dirAdd sys.dirs (get_agent_working_dir env.agent_id))).withStore st1)
          env.agent_id (get_agent_working_dir env.agent_id) env.now (.runtimeErr "git clone failed")
      else if !env.branchOk then
        spawnFail ((sys.withDirs (dirAdd sys.dirs (get_agent_working_dir env.agent_id))).withStore st1)
          env.agent_id (get_agent_working_dir env.agent_id) env.now (.runtimeErr "git checkout failed")
      else if use_container then
        match ContainerAgentProcess.spawn_interactive
            ((sys.withDirs (dirAdd sys.dirs (get_agent_working_dir env.agent_id))).withStore st1)
            env env.agent_id with
        | (.error e, sys2) =>
          spawnFail sys2 env.agent_id (get_agent_working_dir env.agent_id) env.now e
        | (.ok cid, sys2) =>
          (.ok env.agent_id,
           sys2.withStore (storeSetPidStatus sys2.store env.agent_id (some (.str cid)) .running env.now))
      else
        match AgentProcess.spawn_interactive
            ((sys.withDirs (dirAdd sys.dirs (get_agent_working_dir env.agent_id))).withStore st1)
            env env.agent_id with
        | (.error e, sys2) =>
          spawnFail sys2 env.agent_id (get_agent_working_dir env.agent_id) env.now e
        | (.ok p, sys2) =>
          (.ok env.agent_id,
           sys2.withStore (storeSetPidStatus sys2.store env.agent_id (some p) .running env.now))

/-- `AgentManager.attach_agent` (`agent_manager/manager.py` 110–178):
not-found on a missing record; for the recorded backend kind, probe the unit
(container existence / tmux session existence), demote a `running` record and
raise when the unit is gone, otherwise hand over to the blocking attach. -/
def attach_agent (sys : Sys) (now : Nat) (agent_id : String) : Except Err Unit × Sys :=
  match storeGet sys.store agent_id with
  | none => (.error (.notFound agent_id), sys)
  | some a =>
    if a.container_mode then
      if !(container_exists sys (sessionName agent_id)) then
        (.error (.runtimeErr ("No container found for agent " ++ agent_id)),
         demoteIfRunning sys now a)
      else
        ContainerAgentProcess.attach_interactive sys agent_id
    else
      if !(sys.tmux.contains (sessionName agent_id)) then
        (.error (.runtimeErr ("No tmux session found for agent " ++ agent_id)),
         demoteIfRunning sys now a)
      else
        (.ok (), sys)

/-- `AgentManager.stop_agent` (`agent_manager/manager.py` 221–277). -/
def stop_agent (sys : Sys) (now : Nat) (agent_id : String) (remove_workdir : Bool) :
    Except Err Bool × Sys :=
  match storeGet sys.store agent_id with
  | none => (.error (.notFound agent_id), sys)
  | some a =>
    if remove_workdir then
      (.ok true,
       ((stopBackendCleanup sys agent_id a).withDirs
           (dirRemove (stopBackendCleanup sys agent_id a).dirs a.working_dir)).withStore
         (storeDelete (stopBackendCleanup sys agent_id a).store agent_id))
    else
      (.ok true,
       (stopBackendCleanup sys agent_id a).withStore
         (storeSetStatus (stopBackendCleanup sys agent_id a).store agent_id .stopped now))

/-- `AgentManager.delete_agent` (`agent_manager/manager.py` 279–310). -/
def delete_agent (sys : Sys) (agent_id : String) : Except Err Bool × Sys :=
  match storeGet sys.store agent_id with
  | none => (.error (.notFound agent_id), sys)
  | some a =>
    if a.container_mode then
      (.ok true,
       ((containerCleanup sys agent_id).withDirs
           (dirRemove (containerCleanup sys agent_id).dirs a.working_dir)).withStore
         (storeDelete (containerCleanup sys agent_id).store agent_id))
    else
      (.ok true,
       (sys.withDirs (dirRemove sys.dirs a.working_dir)).withStore
         (storeDelete sys.store agent_id))

/-- `AgentManager.clean_agents` (`agent_manager/manager.py` 312–348): the
docker branch runs only for container-mode records. -/
def clean_agents (sys : Sys) (failP : String → Bool) (status : Option Status) :
    Nat × Sys :=
  cleanLoop (fun a => a.container_mode) failP (storeList sys.store status) (0, sys)

end AM

namespace FL

/-- `AgentManager._sync_agent_status` (`fletcher/manager.py` 163–168): every
`running` record is probed through `ContainerAgentProcess.is_running` (the
fletcher copy of `container_process.py` is not in the sources; its probe is
modelled from the spec's ContainerBackend `is_alive` contract, which matches
the `agent_manager` implementation embedded above). -/
def syncRecord (sys : Sys) (now : Nat) (a : AgentRecord) : AgentRecord × Sys :=
  if a.status = .running then
    if ContainerAgentProcess.is_running sys none (sessionName a.id) then (a, sys)
    else (withStatus a .stopped, sys.withStore (storeSetStatus sys.store a.id .stopped now))
  else (a, sys)

/-- `AgentManager.get_agent` (`fletcher/manager.py` 91–97). -/
def get_agent (sys : Sys) (now : Nat) (agent_id : String) : Option AgentRecord × Sys :=
  match storeGet sys.store agent_id with
  | none => (none, sys)
  | some a =>
    let r := syncRecord sys now a
    (some r.1, r.2)

/-- The reconciliation loop of fletcher's `list_agents`. -/
def listLoop (now : Nat) : List AgentRecord → Sys → List AgentRecord × Sys
  | [], sys => ([], sys)
  | a :: rest, sys =>
    let r := syncRecord sys now a
    let l := listLoop now rest r.2
    (r.1 :: l.1, l.2)

/-- `AgentManager.list_agents` (`fletcher/manager.py` 83–89). -/
def list_agents (sys : Sys) (now : Nat) (status : Option Status) :
    List AgentRecord × Sys :=
  listLoop now (storeList sys.store status) sys

/-- `AgentManager.spawn_agent` (`fletcher/manager.py` 18–54): no CLI check and
no URL validation inside the manager (the fletcher CLI validates before
calling); id generation (`utils.generate_agent_id`, not in the sources) is
the `agent_id` the environment supplies; container-only backend. -/
def spawn_agent (sys : Sys) (env : SpawnEnv) (repo_url : String) :
    Except Err String × Sys :=
  match storeCreate (sys.withDirs (dirAdd sys.dirs (get_agent_working_dir env.agent_id))).store
      env.agent_id repo_url (get_agent_working_dir env.agent_id) .spawning true env.now with
  | none =>
    spawnFail (sys.withDirs (dirAdd sys.dirs (get_agent_working_dir env.agent_id)))
      env.agent_id (get_agent_working_dir env.agent_id) env.now (.duplicateId env.agent_id)
  | some st1 =>
    if !env.cloneOk then
      spawnFail ((sys.withDirs (dirAdd sys.dirs (get_agent_working_dir env.agent_id))).withStore st1)
        env.agent_id (get_agent_working_dir env.agent_id) env.now (.runtimeErr "git clone failed")
    else if !env.branchOk then
      spawnFail ((sys.withDirs (dirAdd sys.dirs (get_agent_working_dir env.agent_id))).withStore st1)
        env.agent_id (get_agent_working_dir env.agent_id) env.now (.runtimeErr "git checkout failed")
    else
      match ContainerAgentProcess.spawn_interactive
          ((sys.withDirs (dirAdd sys.dirs (get_agent_working_dir env.agent_id))).withStore st1)
          env env.agent_id with
      | (.error e, sys2) =>
        spawnFail sys2 env.agent_id (get_agent_working_dir env.agent_id) env.now e
      | (.ok cid, sys2) =>
        (.ok env.agent_id,
         sys2.withStore (storeSetPidStatus sys2.store env.agent_id (some (.str cid)) .running env.now))

/-- `AgentManager.attach_agent` (`fletcher/manager.py` 56–81): not-found on a
missing record; a missing container or a non-running container each demote a
`running` record and raise; otherwise the blocking attach runs. -/
def attach_agent (sys : Sys) (now : Nat) (agent_id : String) : Except Err Unit × Sys :=
  match storeGet sys.store agent_id with
  | none => (.error (.notFound agent_id), sys)
  | some a =>
    if !(container_exists sys (sessionName agent_id)) then
      (.error (.runtimeErr ("No container found for agent " ++ agent_id)),
       demoteIfRunning sys now a)
    else if !(ContainerAgentProcess.is_running sys none (sessionName agent_id)) then
      (.error (.runtimeErr ("Container for agent " ++ agent_id ++ " is not running")),
       demoteIfRunning sys now a)
    else
      ContainerAgentProcess.attach_interactive sys agent_id

/-- `AgentManager.stop_agent` (`fletcher/manager.py` 99–121). -/
def stop_agent (sys : Sys) (now : Nat) (agent_id : String) (remove_workdir : Bool) :
    Except Err Bool × Sys :=
  match storeGet sys.store agent_id with
  | none => (.error (.notFound agent_id), sys)
  | some a =>
    if remove_workdir then
      (.ok true,
       ((containerCleanup sys agent_id).withDirs
           (dirRemove (containerCleanup sys agent_id).dirs a.working_dir)).withStore
         (storeDelete (containerCleanup sys agent_id).store agent_id))
    else
      (.ok true,
       (containerCleanup sys agent_id).withStore
         (storeSetStatus (containerCleanup sys agent_id).store agent_id .stopped now))

/-- `AgentManager.delete_agent` (`fletcher/manager.py` 123–137). -/
def delete_agent (sys : Sys) (agent_id : String) : Except Err Bool × Sys :=
  match storeGet sys.store agent_id with
  | none => (.error (.notFound agent_id), sys)
  | some a =>
    (.ok true,
     ((containerCleanup sys agent_id).withDirs
         (dirRemove (containerCleanup sys agent_id).dirs a.working_dir)).withStore
       (storeDelete (containerCleanup sys agent_id).store agent_id))

/-- `AgentManager.clean_agents` (`fletcher/manager.py` 139–161): the docker
branch runs for every listed record. -/
def clean_agents (sys : Sys) (failP : String → Bool) (status : Option Status) :
    Nat × Sys :=
  cleanLoop (fun _ => true) failP (storeList sys.store status) (0, sys)

end FL

/-! ## Basic facts about the store and world operations -/

@[simp]
theorem withStatus_id (a : AgentRecord) (s : Status) : (withStatus a s).id = a.id := rfl

@[simp]
theorem withStatus_status (a : AgentRecord) (s : Status) : (withStatus a s).status = s := rfl

@[simp]
theorem withStatus_pid (a : AgentRecord) (s : Status) : (withStatus a s).pid = a.pid := rfl

@[simp]
theorem withStatus_container_mode (a : AgentRecord) (s : Status) :
    (withStatus a s).container_mode = a.container_mode := rfl

@[simp]
theorem withStatus_working_dir (a : AgentRecord) (s : Status) :
    (withStatus a s).working_dir = a.working_dir := rfl

@[simp]
theorem withPidStatus_id (a : AgentRecord) (p : Option PidVal) (s : Status) :
    (withPidStatus a p s).id = a.id := rfl

@[simp]
theorem withPidStatus_status (a : AgentRecord) (p : Option PidVal) (s : Status) :
    (withPidStatus a p s).status = s := rfl

@[simp]
theorem withPidStatus_pid (a : AgentRecord) (p : Option PidVal) (s : Status) :
    (withPidStatus a p s).pid = p := rfl

@[simp]
theorem touch_id (a : AgentRecord) (now : Nat) : (touch a now).id = a.id := rfl

@[simp]
theorem touch_pid (a : AgentRecord) (now : Nat) : (touch a now).pid = a.pid := rfl

@[simp]
theorem touch_status (a : AgentRecord) (now : Nat) : (touch a now).status = a.status := rfl

@[simp]
theorem withStore_store (sys : Sys) (st : List AgentRecord) :
    (sys.withStore st).store = st := rfl

@[simp]
theorem withStore_dirs (sys : Sys) (st : List AgentRecord) :
    (sys.withStore st).dirs = sys.dirs := rfl

@[simp]
theorem withStore_tmux (sys : Sys) (st : List AgentRecord) :
    (sys.withStore st).tmux = sys.tmux := rfl

@[simp]
theorem withStore_containers (sys : Sys) (st : List AgentRecord) :
    (sys.withStore st).containers = sys.containers := rfl

@[simp]
theorem withStore_procs (sys : Sys) (st : List AgentRecord) :
    (sys.withStore st).procs = sys.procs := rfl

@[simp]
theorem withStore_psFails (sys : Sys) (st : List AgentRecord) :
    (sys.withStore st).psFails = sys.psFails := rfl

@[simp]
theorem withStore_inspectFails (sys : Sys) (st : List AgentRecord) :
    (sys.withStore st).inspectFails = sys.inspectFails := rfl

@[simp]
theorem withDirs_store (sys : Sys) (d : List String) : (sys.withDirs d).store = sys.store := rfl

@[simp]
theorem withDirs_dirs (sys : Sys) (d : List String) : (sys.withDirs d).dirs = d := rfl

@[simp]
theorem withTmux_store (sys : Sys) (t : List String) : (sys.withTmux t).store = sys.store := rfl

@[simp]
theorem withTmux_tmux (sys : Sys) (t : List String) : (sys.withTmux t).tmux = t := rfl

theorem storeGet_mem {st : List AgentRecord} {i : String} {a : AgentRecord}
    (h : storeGet st i = some a) : a ∈ st := by
  induction st with
  | nil => simp [storeGet] at h
  | cons b rest ih =>
    simp only [storeGet] at h
    split at h
    · cases h; exact List.mem_cons_self _ _
    · exact List.mem_cons_of_mem _ (ih h)

theorem storeGet_id {st : List AgentRecord} {i : String} {a : AgentRecord}
    (h : storeGet st i = some a) : a.id = i := by
  induction st with
  | nil => simp [storeGet] at h
  | cons b rest ih =>
    simp only [storeGet] at h
    split at h
    · cases h; assumption
    · exact ih h

theorem storeGet_setStatus_self (st : List AgentRecord) (i : String) (s : Status) (now : Nat) :
    storeGet (storeSetStatus st i s now) i =
      Option.map (fun a => touch (withStatus a s) now) (storeGet st i) := by
  induction st with
  | nil => rfl
  | cons b rest ih =>
    simp only [storeGet, storeSetStatus]
    by_cases h : b.id = i
    · simp [h]
    · simp [h, ih]

theorem storeGet_setPidStatus_self (st : List AgentRecord) (i : String) (p : Option PidVal)
    (s : Status) (now : Nat) :
    storeGet (storeSetPidStatus st i p s now) i =
      Option.map (fun a => touch (withPidStatus a p s) now) (storeGet st i) := by
  induction st with
  | nil => rfl
  | cons b rest ih =>
    simp only [storeGet, storeSetPidStatus]
    by_cases h : b.id = i
    · simp [h]
    · simp [h, ih]

theorem storeGet_delete_self (st : List AgentRecord) (i : String) :
    storeGet (storeDelete st i) i = none := by
  induction st with
  | nil => rfl
  | cons b rest ih =>
    simp only [storeDelete]
    by_cases h : b.id = i
    · simp [h, ih]
    · simp [storeGet, h, ih]

theorem storeGet_isSome_of_create {st st' : List AgentRecord} {i repo wd : String}
    {s : Status} {cm : Bool} {now : Nat} (h : storeCreate st i repo wd s cm now = some st') :
    storeGet st' i = some (AgentRecord.mk i repo wd none s cm now now) := by
  unfold storeCreate at h
  split at h
  · cases h
  · cases h; simp [storeGet]

/-! ## Concrete fixtures used by counterexamples and witnesses -/

/-- The empty world. -/
def sysEmpty : Sys := Sys.mk [] [] [] [] [] false false

/-- A session-mode agent whose assistant process (pid 7) is alive. -/
def exRec1 : AgentRecord :=
  AgentRecord.mk "a1" "https://x/r.git" ".agents/a1" (some (.int 7)) .running false 1 1

/-- World for `exRec1`: working directory present, tmux session live, pid 7 alive. -/
def exSys1 : Sys :=
  Sys.mk [exRec1] [".agents/a1"] ["agent-a1"] [] [7] false false

/-- A container-mode agent whose `pid` column holds the container-id string. -/
def exRecC : AgentRecord :=
  AgentRecord.mk "c3" "https://x/r.git" ".agents/c3" (some (.str "deadbeef")) .running true 1 1

/-- World for `exRecC`: the container exists and is RUNNING. -/
def exSysC : Sys :=
  Sys.mk [exRecC] [".agents/c3"] [] [Container.mk "agent-c3" "deadbeef" true] [] false false

/-- A stopped session-mode agent whose tmux session (and pane process 12) are
still alive — reachable when the assistant exits but the pane shell survives. -/
def exRecS : AgentRecord :=
  AgentRecord.mk "s1" "https://x/r.git" ".agents/s1" (some (.int 12)) .stopped false 1 1

/-- World for `exRecS`. -/
def exSysS : Sys :=
  Sys.mk [exRecS] [".agents/s1"] ["agent-s1"] [] [12] false false

/-- An environment where every external step succeeds. -/
def envOk : SpawnEnv :=
  SpawnEnv.mk "b2" 9 true true true true true true true 33 (some 44) true true true true "cid123" true

/-- `envOk` with the git clone failing. -/
def envClone : SpawnEnv :=
  SpawnEnv.mk "b2" 9 true false true true true true true 33 (some 44) true true true true "cid123" true

/-- `envOk` with the tmux send-keys step (assistant launch) failing. -/
def envLeak : SpawnEnv :=
  SpawnEnv.mk "b2" 9 true true true true true false true 33 (some 44) true true true true "cid123" true

/-- `envOk` with docker unavailable. -/
def envNoDocker : SpawnEnv :=
  SpawnEnv.mk "b2" 9 true true true true true true true 33 (some 44) false true true true "cid123" true

/-- `envOk` where starting the assistant inside the created container fails. -/
def envNoExec : SpawnEnv :=
  SpawnEnv.mk "b2" 9 true true true true true true true 33 (some 44) true true true true "cid123" false

/-! ## World-preservation facts about reconciliation -/

/-- Two worlds that agree on everything except possibly the store. -/
def sameWorld (s1 s2 : Sys) : Prop :=
  s1.dirs = s2.dirs ∧ s1.tmux = s2.tmux ∧ s1.containers = s2.containers ∧
    s1.procs = s2.procs ∧ s1.psFails = s2.psFails ∧ s1.inspectFails = s2.inspectFails

theorem sameWorld_refl (s : Sys) : sameWorld s s :=
  ⟨rfl, rfl, rfl, rfl, rfl, rfl⟩

theorem sameWorld_trans {s1 s2 s3 : Sys} (h1 : sameWorld s1 s2) (h2 : sameWorld s2 s3) :
    sameWorld s1 s3 :=
  ⟨h1.1.trans h2.1, h1.2.1.trans h2.2.1, h1.2.2.1.trans h2.2.2.1,
   h1.2.2.2.1.trans h2.2.2.2.1, h1.2.2.2.2.1.trans h2.2.2.2.2.1,
   h1.2.2.2.2.2.trans h2.2.2.2.2.2⟩

theorem AM.syncRecord_sameWorld (sys : Sys) (now : Nat) (a : AgentRecord) :
    sameWorld (AM.syncRecord sys now a).2 sys := by
  unfold AM.syncRecord
  split
  · split
    · split
      · exact sameWorld_refl sys
      · exact ⟨rfl, rfl, rfl, rfl, rfl, rfl⟩
    · exact sameWorld_refl sys
  · exact sameWorld_refl sys

theorem FL.syncRecord_sameWorld_fl (sys : Sys) (now : Nat) (a : AgentRecord) :
    sameWorld (FL.syncRecord sys now a).2 sys := by
  unfold FL.syncRecord
  split
  · split
    · exact sameWorld_refl sys
    · exact ⟨rfl, rfl, rfl, rfl, rfl, rfl⟩
  · exact sameWorld_refl sys

/-- Every record in the output of the reconciliation loop is the
reconciliation of some listed record against a world identical up to store
contents. -/
theorem AM.listLoop_mem {now : Nat} {l : List AgentRecord} :
    ∀ {sys : Sys} {b : AgentRecord}, b ∈ (AM.listLoop now l sys).1 →
      ∃ a ∈ l, ∃ sys2, sameWorld sys2 sys ∧ b = (AM.syncRecord sys2 now a).1 := by
  induction l with
  | nil => intro sys b h; simp [AM.listLoop] at h
  | cons a rest ih =>
    intro sys b h
    simp only [AM.listLoop, List.mem_cons] at h
    rcases h with h | h
    · exact ⟨a, List.mem_cons_self _ _, sys, sameWorld_refl sys, h⟩
    · rcases ih h with ⟨c, hc, sys2, hw, hb⟩
      exact ⟨c, List.mem_cons_of_mem _ hc, sys2,
        sameWorld_trans hw (AM.syncRecord_sameWorld sys now a), hb⟩

theorem FL.listLoop_mem_fl {now : Nat} {l : List AgentRecord} :
    ∀ {sys : Sys} {b : AgentRecord}, b ∈ (FL.listLoop now l sys).1 →
      ∃ a ∈ l, ∃ sys2, sameWorld sys2 sys ∧ b = (FL.syncRecord sys2 now a).1 := by
  induction l with
  | nil => intro sys b h; simp [FL.listLoop] at h
  | cons a rest ih =>
    intro sys b h
    simp only [FL.listLoop, List.mem_cons] at h
    rcases h with h | h
    · exact ⟨a, List.mem_cons_self _ _, sys, sameWorld_refl sys, h⟩
    · rcases ih h with ⟨c, hc, sys2, hw, hb⟩
      exact ⟨c, List.mem_cons_of_mem _ hc, sys2,
        sameWorld_trans hw (FL.syncRecord_sameWorld_fl sys now a), hb⟩

theorem storeList_subset {st : List AgentRecord} {filt : Option Status} {a : AgentRecord}
    (h : a ∈ storeList st filt) : a ∈ st := by
  induction st with
  | nil => cases filt <;> simp [storeList] at h
  | cons b rest ih =>
    cases filt with
    | none => exact h
    | some s =>
      simp only [storeList] at h
      split at h
      · rcases List.mem_cons.mp h with h | h
        · exact h ▸ List.mem_cons_self _ _
        · exact List.mem_cons_of_mem _ (ih h)
      · exact List.mem_cons_of_mem _ (ih h)

/-- Exhaustive description of `agent_manager`'s per-record reconciliation:
either the record is passed through unchanged (not `running`, falsy pid, or a
pid the probe accepts), or the record claims `running` with a truthy pid the
probe rejects and it is demoted in the returned value and in the store. -/
theorem AM.syncRecord_cases (sys : Sys) (now : Nat) (a : AgentRecord) :
    (AM.syncRecord sys now a = (a, sys) ∧
       (a.status ≠ .running ∨ pidTruthy a.pid = false ∨
        ∃ p, a.pid = some p ∧ is_process_running sys p = true)) ∨
    (∃ p, a.pid = some p ∧ a.status = .running ∧ pidTruthy a.pid = true ∧
       is_process_running sys p = false ∧
       AM.syncRecord sys now a =
         (withStatus a .stopped,
          sys.withStore (storeSetStatus sys.store a.id .stopped now))) := by
  unfold AM.syncRecord
  split
  · rename_i hcond
    split
    · rename_i p hp
      split
      · rename_i halive
        exact Or.inl ⟨rfl, Or.inr (Or.inr ⟨p, hp, halive⟩)⟩
      · rename_i halive
        exact Or.inr ⟨p, hp, hcond.1, hcond.2, Bool.not_eq_true _ ▸ Bool.eq_false_iff.mpr
          (fun hh => halive hh), rfl⟩
    · rename_i hp
      exact Or.inl ⟨rfl, Or.inr (Or.inl (by rw [hp]; rfl))⟩
  · rename_i hcond
    rw [not_and_or] at hcond
    rcases hcond with h | h
    · exact Or.inl ⟨rfl, Or.inl h⟩
    · exact Or.inl ⟨rfl, Or.inr (Or.inl (Bool.not_eq_true _ ▸ Bool.eq_false_iff.mpr
        (fun hh => h hh)))⟩

/-- Exhaustive description of fletcher's `_sync_agent_status`: a `running`
record whose container probe fails is demoted in place and in the store;
everything else passes through unchanged. -/
theorem FL.syncRecord_cases_fl (sys : Sys) (now : Nat) (a : AgentRecord) :
    (FL.syncRecord sys now a = (a, sys) ∧
       (a.status ≠ .running ∨
        ContainerAgentProcess.is_running sys none (sessionName a.id) = true)) ∨
    (a.status = .running ∧
       ContainerAgentProcess.is_running sys none (sessionName a.id) = false ∧
       FL.syncRecord sys now a =
         (withStatus a .stopped,
          sys.withStore (storeSetStatus sys.store a.id .stopped now))) := by
  unfold FL.syncRecord
  split
  · rename_i hst
    split
    · rename_i hal
      exact Or.inl ⟨rfl, Or.inr hal⟩
    · rename_i hal
      exact Or.inr ⟨hst, Bool.eq_false_iff.mpr (fun hh => hal (by rw [hh])), rfl⟩
  · rename_i hst
    exact Or.inl ⟨rfl, Or.inl hst⟩

/-- A record that survives `agent_manager`'s reconciliation as `running` can
never carry a non-empty container-id string in its pid column: the probe
`is_process_running` rejects every string. -/
theorem AM.syncRecord_no_str_running {sys : Sys} {now : Nat} {a : AgentRecord} {s : String}
    (hs : s ≠ "") (hrun : (AM.syncRecord sys now a).1.status = .running)
    (hpid : (AM.syncRecord sys now a).1.pid = some (.str s)) : False := by
  rcases AM.syncRecord_cases sys now a with ⟨heq, hcase⟩ | ⟨p, hp, _, _, halive, heq⟩
  · rw [heq] at hrun hpid
    rcases hcase with h | h | ⟨p, hp, halive⟩
    · exact h hrun
    · rw [hpid] at h
      simp [pidTruthy] at h
      exact hs h
    · rw [hpid] at hp
      cases hp
      simp [is_process_running] at halive
  · rw [heq] at hrun
    simp at hrun

/-- The running flag of the container with exactly this name (`false` when
absent) — the ground-truth liveness of a container-backend unit. -/
def containerAliveName (sys : Sys) (name : String) : Bool :=
  match ctFindName sys.containers name with
  | some c => c.running
  | none => false

/-- Ground-truth liveness of the backend unit a record refers to: the named
container's running flag for a container-mode record, and the recorded
assistant process for a session-mode record. -/
def backendAlive (sys : Sys) (a : AgentRecord) : Bool :=
  if a.container_mode then containerAliveName sys (sessionName a.id)
  else
    match a.pid with
    | some (.int n) => sys.procs.contains n
    | _ => false

/-- Whether the pid column holds an integer value. -/
def isIntPid : Option PidVal → Bool
  | some (.int _) => true
  | _ => false

/-- Record sanity established by every manager-created record: a `running`
record holds a truthy pid, and a container-mode record never holds an integer
pid (the container backend stores the container-id string). -/
def RecInv (a : AgentRecord) : Prop :=
  (a.status = .running → pidTruthy a.pid = true) ∧
  (a.container_mode = true → isIntPid a.pid = false)

instance (a : AgentRecord) : Decidable (RecInv a) := by
  unfold RecInv; infer_instance

/-- `RecInv` for every record in the store. -/
def StoreInv (sys : Sys) : Prop := ∀ a ∈ sys.store, RecInv a

instance (sys : Sys) : Decidable (StoreInv sys) := by
  unfold StoreInv; infer_instance

/-- Container ids never collide with agent session names (docker container
ids are hex strings and never of the form `agent-…`), so a docker lookup by
name resolves by name. -/
def CidSane (sys : Sys) : Prop :=
  ∀ c ∈ sys.containers, ∀ a ∈ sys.store, c.cid ≠ sessionName a.id

instance (sys : Sys) : Decidable (CidSane sys) := by
  unfold CidSane; infer_instance

theorem ctFind_eq_ctFindName {l : List Container} {ref : String}
    (h : ∀ c ∈ l, c.cid ≠ ref) : ctFind l ref = ctFindName l ref := by
  induction l with
  | nil => rfl
  | cons c rest ih =>
    simp only [ctFind, ctFindName]
    by_cases hn : c.name = ref
    · simp [ctMatch, hn]
    · have hc : ¬ ctMatch c ref := by
        unfold ctMatch
        push_neg
        exact ⟨hn, h c (List.mem_cons_self _ _)⟩
      rw [if_neg hc, if_neg hn]
      exact ih (fun d hd => h d (List.mem_cons_of_mem _ hd))

theorem backendAlive_congr {s1 s2 : Sys} (h : sameWorld s1 s2) (a : AgentRecord) :
    backendAlive s1 a = backendAlive s2 a := by
  unfold backendAlive containerAliveName
  rw [h.2.2.1, h.2.2.2.1]

theorem containerAliveName_congr {s1 s2 : Sys} (h : sameWorld s1 s2) (name : String) :
    containerAliveName s1 name = containerAliveName s2 name := by
  unfold containerAliveName
  rw [h.2.2.1]

/-- If fletcher's container probe answers `true` for an agent name, the named
container really is running (assuming container ids do not collide with the
name being looked up). -/
theorem probe_true_imp_alive {sys : Sys} {name : String}
    (hcid : ∀ c ∈ sys.containers, c.cid ≠ name)
    (h : ContainerAgentProcess.is_running sys none name = true) :
    containerAliveName sys name = true := by
  unfold ContainerAgentProcess.is_running at h
  split at h
  · cases h
  · cases hg : get_container_info sys ((none : Option String).getD name) with
    | none => rw [hg] at h; cases h
    | some running =>
      rw [hg] at h
      unfold get_container_info at hg
      split at hg
      · cases hg
      · rw [show (none : Option String).getD name = name from rfl,
          ctFind_eq_ctFindName hcid] at hg
        unfold containerAliveName
        cases hfind : ctFindName sys.containers name with
        | none => rw [hfind] at hg; cases hg
        | some c =>
          rw [hfind] at hg
          have hcr : c.running = running := by simpa using hg
          have hr : running = true := by simpa using h
          show c.running = true
          rw [hcr, hr]

theorem alive_false_imp_probe_false {sys : Sys} {name : String}
    (hcid : ∀ c ∈ sys.containers, c.cid ≠ name)
    (h : containerAliveName sys name = false) :
    ContainerAgentProcess.is_running sys none name = false := by
  cases hp : ContainerAgentProcess.is_running sys none name with
  | false => rfl
  | true => rw [probe_true_imp_alive hcid hp] at h; cases h

/-- A record returned as `running` by `agent_manager`'s reconciliation is
unchanged and its backend unit is genuinely alive (under `RecInv`). -/
theorem AM.syncRecord_running_alive {sys : Sys} {now : Nat} {a : AgentRecord}
    (hInv : RecInv a) (h : (AM.syncRecord sys now a).1.status = .running) :
    (AM.syncRecord sys now a).1 = a ∧ backendAlive sys a = true := by
  rcases AM.syncRecord_cases sys now a with ⟨heq, hcase⟩ | ⟨p, hp, _, _, _, heq⟩
  · rw [heq] at h ⊢
    refine ⟨rfl, ?_⟩
    rcases hcase with hne | htr | ⟨p, hp, halive⟩
    · exact absurd h hne
    · rw [hInv.1 h] at htr; cases htr
    · cases p with
      | str s =>
        simp [is_process_running] at halive
      | int n =>
        have hcm : a.container_mode = false := by
          cases hcm : a.container_mode with
          | false => rfl
          | true =>
            have hi := hInv.2 hcm
            rw [hp] at hi
            cases hi
        simp only [backendAlive, hcm, Bool.false_eq_true, if_false, hp]
        simpa [is_process_running] using halive
  · rw [heq] at h
    simp at h

/-- A `running` record whose backend unit is dead is demoted by
`agent_manager`'s reconciliation (under `RecInv`). -/
theorem AM.syncRecord_demotes {sys : Sys} {now : Nat} {a : AgentRecord}
    (hInv : RecInv a) (hrun : a.status = .running) (hdead : backendAlive sys a = false) :
    AM.syncRecord sys now a =
      (withStatus a .stopped, sys.withStore (storeSetStatus sys.store a.id .stopped now)) := by
  rcases AM.syncRecord_cases sys now a with ⟨heq, hcase⟩ | ⟨p, hp, _, _, _, heq⟩
  · exfalso
    rcases hcase with hne | htr | ⟨p, hp, halive⟩
    · exact hne hrun
    · rw [hInv.1 hrun] at htr; cases htr
    · cases p with
      | str s => simp [is_process_running] at halive
      | int n =>
        have hcm : a.container_mode = false := by
          cases hcm : a.container_mode with
          | false => rfl
          | true =>
            have hi := hInv.2 hcm
            rw [hp] at hi
            cases hi
        simp only [backendAlive, hcm, Bool.false_eq_true, if_false, hp] at hdead
        simp only [is_process_running] at halive
        rw [halive] at hdead
        cases hdead
  · exact heq

/-- A record returned as `running` by fletcher's reconciliation is unchanged
and the named container is genuinely running (under `CidSane` for its name). -/
theorem FL.syncRecord_running_alive_fl {sys : Sys} {now : Nat} {a : AgentRecord}
    (hcid : ∀ c ∈ sys.containers, c.cid ≠ sessionName a.id)
    (h : (FL.syncRecord sys now a).1.status = .running) :
    (FL.syncRecord sys now a).1 = a ∧
      containerAliveName sys (sessionName a.id) = true := by
  rcases FL.syncRecord_cases_fl sys now a with ⟨heq, hcase⟩ | ⟨_, _, heq⟩
  · rw [heq] at h ⊢
    refine ⟨rfl, ?_⟩
    rcases hcase with hne | hp
    · exact absurd h hne
    · exact probe_true_imp_alive hcid hp
  · rw [heq] at h
    simp at h

/-- A `running` record whose named container is not running is demoted by
fletcher's reconciliation (under `CidSane` for its name). -/
theorem FL.syncRecord_demotes_fl {sys : Sys} {now : Nat} {a : AgentRecord}
    (hcid : ∀ c ∈ sys.containers, c.cid ≠ sessionName a.id)
    (hrun : a.status = .running)
    (hdead : containerAliveName sys (sessionName a.id) = false) :
    FL.syncRecord sys now a =
      (withStatus a .stopped, sys.withStore (storeSetStatus sys.store a.id .stopped now)) := by
  rcases FL.syncRecord_cases_fl sys now a with ⟨heq, hcase⟩ | ⟨_, _, heq⟩
  · exfalso
    rcases hcase with hne | hp
    · exact hne hrun
    · rw [alive_false_imp_probe_false hcid hdead] at hp; cases hp
  · exact heq

theorem stop_container_store (sys : Sys) (ref : String) :
    (stop_container sys ref).1.store = sys.store := by
  unfold stop_container
  cases ctFind sys.containers ref <;> rfl

theorem remove_container_store (sys : Sys) (ref : String) (force : Bool) :
    (remove_container sys ref force).1.store = sys.store := by
  unfold remove_container
  cases ctFind sys.containers ref with
  | none => rfl
  | some c =>
    simp only
    split <;> rfl

theorem remove_container_dirs (sys : Sys) (ref : String) (force : Bool) :
    (remove_container sys ref force).1.dirs = sys.dirs := by
  unfold remove_container
  cases ctFind sys.containers ref with
  | none => rfl
  | some c =>
    simp only
    split <;> rfl

theorem stop_container_dirs (sys : Sys) (ref : String) :
    (stop_container sys ref).1.dirs = sys.dirs := by
  unfold stop_container
  cases ctFind sys.containers ref <;> rfl

theorem AgentProcess.spawn_interactive_store (sys : Sys) (env : SpawnEnv) (i : String) :
    (AgentProcess.spawn_interactive sys env i).2.store = sys.store := by
  unfold AgentProcess.spawn_interactive
  split
  · rfl
  · split
    · rfl
    · split
      · rfl
      · split <;> rfl

theorem AgentProcess.spawn_interactive_dirs (sys : Sys) (env : SpawnEnv) (i : String) :
    (AgentProcess.spawn_interactive sys env i).2.dirs = sys.dirs := by
  unfold AgentProcess.spawn_interactive
  split
  · rfl
  · split
    · rfl
    · split
      · rfl
      · split <;> rfl

theorem ContainerAgentProcess.spawn_interactive_store_ct (sys : Sys) (env : SpawnEnv)
    (i : String) :
    (ContainerAgentProcess.spawn_interactive sys env i).2.store = sys.store := by
  unfold ContainerAgentProcess.spawn_interactive
  cases hda : env.dockerAvailable <;> cases hdr : env.dockerRunning <;>
    cases him : env.imageOk <;> cases hcr : env.createOk <;> cases hex : env.execOk <;>
    cases hce : container_exists sys (sessionName i) <;>
    simp [hda, hdr, him, hcr, hex, hce, remove_container_store]

theorem ContainerAgentProcess.spawn_interactive_dirs_ct (sys : Sys) (env : SpawnEnv)
    (i : String) :
    (ContainerAgentProcess.spawn_interactive sys env i).2.dirs = sys.dirs := by
  unfold ContainerAgentProcess.spawn_interactive
  cases hda : env.dockerAvailable <;> cases hdr : env.dockerRunning <;>
    cases him : env.imageOk <;> cases hcr : env.createOk <;> cases hex : env.execOk <;>
    cases hce : container_exists sys (sessionName i) <;>
    simp [hda, hdr, him, hcr, hex, hce, remove_container_dirs]

theorem not_mem_dirRemove (l : List String) (p : String) : p ∉ dirRemove l p := by
  induction l with
  | nil => simp [dirRemove]
  | cons d rest ih =>
    simp only [dirRemove]
    split
    · exact ih
    · rename_i hne
      intro h
      rcases List.mem_cons.mp h with h | h
      · exact hne h.symm
      · exact ih h

/-- What every record found under the spawned id looks like after a failed
spawn, together with the removed working directory and the wrapped error. -/
def SpawnFailSpec (res : Except Err String × Sys) (agent_id wd : String) : Prop :=
  (∀ a, storeGet res.2.store agent_id = some a → a.status = .error) ∧
  wd ∉ res.2.dirs ∧
  ∃ m, res.1 = .error (.runtimeErr ("Failed to spawn agent: " ++ m))

theorem storeGet_setStatus_status {st : List AgentRecord} {i : String} {s : Status}
    {now : Nat} {a : AgentRecord} (h : storeGet (storeSetStatus st i s now) i = some a) :
    a.status = s := by
  rw [storeGet_setStatus_self] at h
  cases hg : storeGet st i with
  | none => rw [hg] at h; cases h
  | some b =>
    rw [hg] at h
    simp only [Option.map_some'] at h
    cases h
    rfl

theorem spawnFail_spec (sys : Sys) (agent_id wd : String) (now : Nat) (cause : Err) :
    SpawnFailSpec (spawnFail sys agent_id wd now cause) agent_id wd := by
  refine ⟨?_, ?_, ⟨cause.message, rfl⟩⟩
  · intro a ha
    exact storeGet_setStatus_status ha
  · exact not_mem_dirRemove _ _

/-- Once validation passes, `agent_manager`'s spawn either succeeds — leaving
the created record updated to `running` with a pid — or returns a literal
`spawnFail` (record marked `error`, working directory removed, wrapped
error). -/
theorem AM.spawn_agent_shape (sys : Sys) (env : SpawnEnv) (url : String) (uc : Bool)
    (hcli : env.cliAvailable = true) (hurl : validate_repo_url url = true) :
    (∃ (p : PidVal) (sys2 : Sys), AM.spawn_agent sys env url uc =
        (.ok env.agent_id,
         sys2.withStore (storeSetPidStatus sys2.store env.agent_id (some p) .running env.now)) ∧
       storeGet sys2.store env.agent_id =
         some (AgentRecord.mk env.agent_id url (get_agent_working_dir env.agent_id)
           none .spawning uc env.now env.now)) ∨
    (∃ (cause : Err) (sysX : Sys), AM.spawn_agent sys env url uc =
        spawnFail sysX env.agent_id (get_agent_working_dir env.agent_id) env.now cause) := by
  unfold AM.spawn_agent
  simp only [hcli, hurl, Bool.not_true, Bool.false_eq_true, if_false]
  cases hcr : storeCreate (sys.withDirs (dirAdd sys.dirs (get_agent_working_dir env.agent_id))).store
      env.agent_id url (get_agent_working_dir env.agent_id) .spawning uc env.now with
  | none =>
    exact Or.inr ⟨.duplicateId env.agent_id,
      sys.withDirs (dirAdd sys.dirs (get_agent_working_dir env.agent_id)), rfl⟩
  | some st1 =>
    cases hclone : env.cloneOk with
    | false =>
      exact Or.inr ⟨.runtimeErr "git clone failed",
        (sys.withDirs (dirAdd sys.dirs (get_agent_working_dir env.agent_id))).withStore st1,
        by simp⟩
    | true =>
      cases hbr : env.branchOk with
      | false =>
        exact Or.inr ⟨.runtimeErr "git checkout failed",
          (sys.withDirs (dirAdd sys.dirs (get_agent_working_dir env.agent_id))).withStore st1,
          by simp⟩
      | true =>
        simp only [Bool.not_true, Bool.false_eq_true, if_false]
        cases uc with
        | true =>
          simp only [if_true]
          rcases hsp : ContainerAgentProcess.spawn_interactive
              ((sys.withDirs (dirAdd sys.dirs (get_agent_working_dir env.agent_id))).withStore st1)
              env env.agent_id with ⟨r, s2⟩
          have hs2 : s2.store = st1 := by
            have hst := ContainerAgentProcess.spawn_interactive_store_ct
              ((sys.withDirs (dirAdd sys.dirs (get_agent_working_dir env.agent_id))).withStore st1)
              env env.agent_id
            rw [hsp] at hst
            simpa using hst
          cases r with
          | error e => exact Or.inr ⟨e, s2, rfl⟩
          | ok cid =>
            refine Or.inl ⟨.str cid, s2, rfl, ?_⟩
            rw [hs2]
            exact storeGet_isSome_of_create hcr
        | false =>
          simp only [Bool.false_eq_true, if_false]
          rcases hsp : AgentProcess.spawn_interactive
              ((sys.withDirs (dirAdd sys.dirs (get_agent_working_dir env.agent_id))).withStore st1)
              env env.agent_id with ⟨r, s2⟩
          have hs2 : s2.store = st1 := by
            have hst := AgentProcess.spawn_interactive_store
              ((sys.withDirs (dirAdd sys.dirs (get_agent_working_dir env.agent_id))).withStore st1)
              env env.agent_id
            rw [hsp] at hst
            simpa using hst
          cases r with
          | error e => exact Or.inr ⟨e, s2, rfl⟩
          | ok p =>
            refine Or.inl ⟨p, s2, rfl, ?_⟩
            rw [hs2]
            exact storeGet_isSome_of_create hcr

/-- Fletcher's spawn has the same two outcomes, with no validation gate. -/
theorem FL.spawn_agent_shape_fl (sys : Sys) (env : SpawnEnv) (url : String) :
    (∃ (p : PidVal) (sys2 : Sys), FL.spawn_agent sys env url =
        (.ok env.agent_id,
         sys2.withStore (storeSetPidStatus sys2.store env.agent_id (some p) .running env.now)) ∧
       storeGet sys2.store env.agent_id =
         some (AgentRecord.mk env.agent_id url (get_agent_working_dir env.agent_id)
           none .spawning true env.now env.now)) ∨
    (∃ (cause : Err) (sysX : Sys), FL.spawn_agent sys env url =
        spawnFail sysX env.agent_id (get_agent_working_dir env.agent_id) env.now cause) := by
  unfold FL.spawn_agent
  cases hcr : storeCreate (sys.withDirs (dirAdd sys.dirs (get_agent_working_dir env.agent_id))).store
      env.agent_id url (get_agent_working_dir env.agent_id) .spawning true env.now with
  | none =>
    exact Or.inr ⟨.duplicateId env.agent_id,
      sys.withDirs (dirAdd sys.dirs (get_agent_working_dir env.agent_id)), rfl⟩
  | some st1 =>
    cases hclone : env.cloneOk with
    | false =>
      exact Or.inr ⟨.runtimeErr "git clone failed",
        (sys.withDirs (dirAdd sys.dirs (get_agent_working_dir env.agent_id))).withStore st1,
        by simp⟩
    | true =>
      cases hbr : env.branchOk with
      | false =>
        exact Or.inr ⟨.runtimeErr "git checkout failed",
          (sys.withDirs (dirAdd sys.dirs (get_agent_working_dir env.agent_id))).withStore st1,
          by simp⟩
      | true =>
        simp only [Bool.not_true, Bool.false_eq_true, if_false]
        rcases hsp : ContainerAgentProcess.spawn_interactive
            ((sys.withDirs (dirAdd sys.dirs (get_agent_working_dir env.agent_id))).withStore st1)
            env env.agent_id with ⟨r, s2⟩
        have hs2 : s2.store = st1 := by
          have hst := ContainerAgentProcess.spawn_interactive_store_ct
            ((sys.withDirs (dirAdd sys.dirs (get_agent_working_dir env.agent_id))).withStore st1)
            env env.agent_id
          rw [hsp] at hst
          simpa using hst
        cases r with
        | error e => exact Or.inr ⟨e, s2, rfl⟩
        | ok cid =>
          refine Or.inl ⟨.str cid, s2, rfl, ?_⟩
          rw [hs2]
          exact storeGet_isSome_of_create hcr

theorem terminate_process_store (sys : Sys) (p : PidVal) :
    (terminate_process sys p).store = sys.store := by
  cases p <;> rfl

theorem terminate_process_dirs (sys : Sys) (p : PidVal) :
    (terminate_process sys p).dirs = sys.dirs := by
  cases p <;> rfl

theorem containerCleanup_store (sys : Sys) (i : String) :
    (containerCleanup sys i).store = sys.store := by
  unfold containerCleanup
  split
  · rw [remove_container_store, stop_container_store]
  · rfl

theorem containerCleanup_dirs (sys : Sys) (i : String) :
    (containerCleanup sys i).dirs = sys.dirs := by
  unfold containerCleanup
  split
  · rw [remove_container_dirs, stop_container_dirs]
  · rfl

theorem stop_container_tmux (sys : Sys) (ref : String) :
    (stop_container sys ref).1.tmux = sys.tmux := by
  unfold stop_container
  cases ctFind sys.containers ref <;> rfl

theorem remove_container_tmux (sys : Sys) (ref : String) (force : Bool) :
    (remove_container sys ref force).1.tmux = sys.tmux := by
  unfold remove_container
  cases ctFind sys.containers ref with
  | none => rfl
  | some c =>
    simp only
    split <;> rfl

theorem stop_container_procs (sys : Sys) (ref : String) :
    (stop_container sys ref).1.procs = sys.procs := by
  unfold stop_container
  cases ctFind sys.containers ref <;> rfl

theorem remove_container_procs (sys : Sys) (ref : String) (force : Bool) :
    (remove_container sys ref force).1.procs = sys.procs := by
  unfold remove_container
  cases ctFind sys.containers ref with
  | none => rfl
  | some c =>
    simp only
    split <;> rfl

theorem containerCleanup_tmux (sys : Sys) (i : String) :
    (containerCleanup sys i).tmux = sys.tmux := by
  unfold containerCleanup
  split
  · rw [remove_container_tmux, stop_container_tmux]
  · rfl

theorem containerCleanup_procs (sys : Sys) (i : String) :
    (containerCleanup sys i).procs = sys.procs := by
  unfold containerCleanup
  split
  · rw [remove_container_procs, stop_container_procs]
  · rfl

theorem stop_container_psFails (sys : Sys) (ref : String) :
    (stop_container sys ref).1.psFails = sys.psFails := by
  unfold stop_container
  cases ctFind sys.containers ref <;> rfl

theorem remove_container_psFails (sys : Sys) (ref : String) (force : Bool) :
    (remove_container sys ref force).1.psFails = sys.psFails := by
  unfold remove_container
  cases ctFind sys.containers ref with
  | none => rfl
  | some c =>
    simp only
    split <;> rfl

theorem containerCleanup_psFails (sys : Sys) (i : String) :
    (containerCleanup sys i).psFails = sys.psFails := by
  unfold containerCleanup
  split
  · rw [remove_container_psFails, stop_container_psFails]
  · rfl

theorem stop_container_inspectFails (sys : Sys) (ref : String) :
    (stop_container sys ref).1.inspectFails = sys.inspectFails := by
  unfold stop_container
  cases ctFind sys.containers ref <;> rfl

theorem remove_container_inspectFails (sys : Sys) (ref : String) (force : Bool) :
    (remove_container sys ref force).1.inspectFails = sys.inspectFails := by
  unfold remove_container
  cases ctFind sys.containers ref with
  | none => rfl
  | some c =>
    simp only
    split <;> rfl

theorem containerCleanup_inspectFails (sys : Sys) (i : String) :
    (containerCleanup sys i).inspectFails = sys.inspectFails := by
  unfold containerCleanup
  split
  · rw [remove_container_inspectFails, stop_container_inspectFails]
  · rfl

theorem stopBackendCleanup_store (sys : Sys) (i : String) (a : AgentRecord) :
    (stopBackendCleanup sys i a).store = sys.store := by
  unfold stopBackendCleanup
  split
  · rw [containerCleanup_store]
  · split
    · split
      · rw [terminate_process_store]; rfl
      · rfl
    · rfl

theorem stopBackendCleanup_dirs (sys : Sys) (i : String) (a : AgentRecord) :
    (stopBackendCleanup sys i a).dirs = sys.dirs := by
  unfold stopBackendCleanup
  split
  · rw [containerCleanup_dirs]
  · split
    · split
      · rw [terminate_process_dirs]; rfl
      · rfl
    · rfl

/-- `agent_manager.stop_agent` on an existing record, both flag values. -/
theorem AM.stop_agent_found (sys : Sys) (now : Nat) (i : String) (a : AgentRecord)
    (ha : storeGet sys.store i = some a) :
    AM.stop_agent sys now i true =
      (.ok true,
       ((stopBackendCleanup sys i a).withDirs
           (dirRemove (stopBackendCleanup sys i a).dirs a.working_dir)).withStore
         (storeDelete (stopBackendCleanup sys i a).store i)) ∧
    AM.stop_agent sys now i false =
      (.ok true,
       (stopBackendCleanup sys i a).withStore
         (storeSetStatus (stopBackendCleanup sys i a).store i .stopped now)) := by
  constructor
  · unfold AM.stop_agent
    rw [ha]
    rfl
  · unfold AM.stop_agent
    rw [ha]
    rfl

/-- `fletcher.stop_agent` on an existing record, both flag values. -/
theorem FL.stop_agent_found_fl (sys : Sys) (now : Nat) (i : String) (a : AgentRecord)
    (ha : storeGet sys.store i = some a) :
    FL.stop_agent sys now i true =
      (.ok true,
       ((containerCleanup sys i).withDirs
           (dirRemove (containerCleanup sys i).dirs a.working_dir)).withStore
         (storeDelete (containerCleanup sys i).store i)) ∧
    FL.stop_agent sys now i false =
      (.ok true,
       (containerCleanup sys i).withStore
         (storeSetStatus (containerCleanup sys i).store i .stopped now)) := by
  constructor
  · unfold FL.stop_agent
    rw [ha]
    rfl
  · unfold FL.stop_agent
    rw [ha]
    rfl

theorem AM.syncRecord_not_running {sys : Sys} {now : Nat} {a : AgentRecord}
    (h : a.status ≠ .running) : AM.syncRecord sys now a = (a, sys) := by
  unfold AM.syncRecord
  rw [if_neg (fun hc => h hc.1)]

theorem FL.syncRecord_not_running_fl {sys : Sys} {now : Nat} {a : AgentRecord}
    (h : a.status ≠ .running) : FL.syncRecord sys now a = (a, sys) := by
  unfold FL.syncRecord
  rw [if_neg h]

theorem mem_ctRemove {l : List Container} {ref : String} {c : Container}
    (h : c ∈ ctRemove l ref) : c ∈ l ∧ ¬ ctMatch c ref := by
  induction l with
  | nil => simp [ctRemove] at h
  | cons d rest ih =>
    simp only [ctRemove] at h
    split at h
    · exact ⟨List.mem_cons_of_mem _ (ih h).1, (ih h).2⟩
    · rename_i hd
      rcases List.mem_cons.mp h with h | h
      · exact ⟨h ▸ List.mem_cons_self _ _, h ▸ hd⟩
      · exact ⟨List.mem_cons_of_mem _ (ih h).1, (ih h).2⟩

theorem mem_remove_container {sys : Sys} {ref : String} {force : Bool} {c : Container}
    (h : c ∈ (remove_container sys ref force).1.containers) : c ∈ sys.containers := by
  unfold remove_container at h
  cases hf : ctFind sys.containers ref with
  | none => rw [hf] at h; exact h
  | some d =>
    rw [hf] at h
    simp only at h
    split at h
    · exact h
    · exact (mem_ctRemove h).1

/-! ## Batch-clean characterization -/

/-- Whether `clean` actually removes a listed agent: removal fails only when
`shutil.rmtree` raises on an existing directory. -/
def remPred (dirs0 : List String) (failP : String → Bool) (a : AgentRecord) : Bool :=
  if failP a.working_dir = true ∧ a.working_dir ∈ dirs0 then false else true

/-- Iterated `storeDelete`. -/
def multiDelete : List AgentRecord → List String → List AgentRecord
  | st, [] => st
  | st, i :: is => multiDelete (storeDelete st i) is

/-- Iterated `dirRemove`. -/
def multiRemove : List String → List String → List String
  | l, [] => l
  | l, p :: ps => multiRemove (dirRemove l p) ps

/-- The evolution of the container list under the clean loop: one conditional
docker purge per listed record. -/
def ctCleanupFold (cm : AgentRecord → Bool) (ps : Bool) :
    List AgentRecord → List Container → List Container
  | [], cs => cs
  | a :: rest, cs =>
    ctCleanupFold cm ps rest
      (if cm a = true ∧ ps = false ∧ (ctFindName cs (sessionName a.id)).isSome = true then
         ctRemove (ctStop cs (sessionName a.id)) (sessionName a.id)
       else cs)

theorem mem_dirRemove {l : List String} {p q : String} (h : q ∈ dirRemove l p) :
    q ∈ l ∧ q ≠ p := by
  induction l with
  | nil => simp [dirRemove] at h
  | cons d rest ih =>
    simp only [dirRemove] at h
    split at h
    · exact ⟨List.mem_cons_of_mem _ (ih h).1, (ih h).2⟩
    · rename_i hd
      rcases List.mem_cons.mp h with h | h
      · exact ⟨h ▸ List.mem_cons_self _ _, h ▸ hd⟩
      · exact ⟨List.mem_cons_of_mem _ (ih h).1, (ih h).2⟩

theorem mem_dirRemove_of_ne {l : List String} {p q : String} (hq : q ∈ l) (hne : q ≠ p) :
    q ∈ dirRemove l p := by
  induction l with
  | nil => simp at hq
  | cons d rest ih =>
    simp only [dirRemove]
    rcases List.mem_cons.mp hq with h | h
    · rw [if_neg (h ▸ hne)]
      exact h ▸ List.mem_cons_self _ _
    · split
      · exact ih h
      · exact List.mem_cons_of_mem _ (ih h)

theorem not_mem_multiRemove_of_not_mem {ws : List String} :
    ∀ {l : List String} {p : String}, p ∉ l → p ∉ multiRemove l ws := by
  induction ws with
  | nil => intro l p h; exact h
  | cons w rest ih =>
    intro l p h
    exact ih (fun hh => h (mem_dirRemove hh).1)

theorem not_mem_multiRemove {ws : List String} :
    ∀ {l : List String} {p : String}, p ∈ ws → p ∉ multiRemove l ws := by
  induction ws with
  | nil => intro l p h; simp at h
  | cons w rest ih =>
    intro l p h
    rcases List.mem_cons.mp h with h | h
    · subst h
      show p ∉ multiRemove (dirRemove l p) rest
      exact not_mem_multiRemove_of_not_mem (not_mem_dirRemove _ _)
    · exact ih h

theorem mem_multiRemove_of_not_mem {ws : List String} :
    ∀ {l : List String} {p : String}, p ∈ l → p ∉ ws → p ∈ multiRemove l ws := by
  induction ws with
  | nil => intro l p h _; exact h
  | cons w rest ih =>
    intro l p h hw
    have hpw : p ≠ w := fun hh => hw (hh ▸ List.mem_cons_self _ _)
    exact ih (mem_dirRemove_of_ne h hpw) (fun hh => hw (List.mem_cons_of_mem _ hh))

theorem storeGet_none_delete {st : List AgentRecord} {j k : String}
    (h : storeGet st j = none) : storeGet (storeDelete st k) j = none := by
  induction st with
  | nil => rfl
  | cons a rest ih =>
    simp only [storeGet] at h
    split at h
    · cases h
    · rename_i hne
      simp only [storeDelete]
      split
      · exact ih h
      · simp only [storeGet, if_neg hne]
        exact ih h

theorem storeGet_multiDelete_none {ids : List String} :
    ∀ {st : List AgentRecord} {j : String}, storeGet st j = none →
      storeGet (multiDelete st ids) j = none := by
  induction ids with
  | nil => intro _ _ h; exact h
  | cons i rest ih =>
    intro st j h
    exact ih (storeGet_none_delete h)

theorem storeGet_multiDelete_mem {ids : List String} :
    ∀ {st : List AgentRecord} {j : String}, j ∈ ids →
      storeGet (multiDelete st ids) j = none := by
  induction ids with
  | nil => intro _ _ h; simp at h
  | cons i rest ih =>
    intro st j h
    rcases List.mem_cons.mp h with h | h
    · subst h
      show storeGet (multiDelete (storeDelete st j) rest) j = none
      exact storeGet_multiDelete_none (storeGet_delete_self _ _)
    · exact ih h

theorem mem_storeDelete_of_ne {st : List AgentRecord} {b : AgentRecord} {i : String}
    (hb : b ∈ st) (hne : b.id ≠ i) : b ∈ storeDelete st i := by
  induction st with
  | nil => simp at hb
  | cons a rest ih =>
    simp only [storeDelete]
    rcases List.mem_cons.mp hb with h | h
    · rw [if_neg (h ▸ hne)]
      exact h ▸ List.mem_cons_self _ _
    · split
      · exact ih h
      · exact List.mem_cons_of_mem _ (ih h)

theorem mem_multiDelete {ids : List String} :
    ∀ {st : List AgentRecord} {b : AgentRecord}, b ∈ st → b.id ∉ ids →
      b ∈ multiDelete st ids := by
  induction ids with
  | nil => intro _ _ h _; exact h
  | cons i rest ih =>
    intro st b hb hid
    have hne : b.id ≠ i := fun hh => hid (hh ▸ List.mem_cons_self _ _)
    exact ih (mem_storeDelete_of_ne hb hne) (fun hh => hid (List.mem_cons_of_mem _ hh))

@[simp]
theorem withDirs_tmux (sys : Sys) (d : List String) : (sys.withDirs d).tmux = sys.tmux := rfl

@[simp]
theorem withDirs_containers (sys : Sys) (d : List String) :
    (sys.withDirs d).containers = sys.containers := rfl

@[simp]
theorem withDirs_procs (sys : Sys) (d : List String) : (sys.withDirs d).procs = sys.procs := rfl

@[simp]
theorem withDirs_psFails (sys : Sys) (d : List String) :
    (sys.withDirs d).psFails = sys.psFails := rfl

@[simp]
theorem withDirs_inspectFails (sys : Sys) (d : List String) :
    (sys.withDirs d).inspectFails = sys.inspectFails := rfl

theorem Sys.ext_of (s t : Sys) (h1 : s.store = t.store) (h2 : s.dirs = t.dirs)
    (h3 : s.tmux = t.tmux) (h4 : s.containers = t.containers) (h5 : s.procs = t.procs)
    (h6 : s.psFails = t.psFails) (h7 : s.inspectFails = t.inspectFails) : s = t := by
  cases s
  cases t
  simp_all

theorem ctFindName_some {l : List Container} {n : String} {c : Container}
    (h : ctFindName l n = some c) : c ∈ l ∧ c.name = n := by
  induction l with
  | nil => cases h
  | cons d rest ih =>
    simp only [ctFindName] at h
    split at h
    · cases h
      rename_i hd
      exact ⟨List.mem_cons_self _ _, hd⟩
    · exact ⟨List.mem_cons_of_mem _ (ih h).1, (ih h).2⟩

theorem ctFind_isSome_of_mem_match {l : List Container} {ref : String} {d : Container}
    (hd : d ∈ l) (hm : ctMatch d ref) : (ctFind l ref).isSome = true := by
  induction l with
  | nil => simp at hd
  | cons c rest ih =>
    simp only [ctFind]
    split
    · rfl
    · rename_i hc
      rcases List.mem_cons.mp hd with h | h
      · exact absurd (h ▸ hm) hc
      · exact ih h

theorem ctMatch_ctStop_elem (c : Container) (ref : String) :
    ctMatch (if ctMatch c ref then Container.mk c.name c.cid false else c) ref =
      ctMatch c ref := by
  split
  · rename_i h
    simp only [eq_iff_iff]
    constructor
    · intro _; exact h
    · intro _
      rcases h with h | h
      · exact Or.inl h
      · exact Or.inr h
  · rfl

theorem ctFind_ctStop_isSome (l : List Container) (ref : String) :
    (ctFind (ctStop l ref) ref).isSome = (ctFind l ref).isSome := by
  induction l with
  | nil => rfl
  | cons c rest ih =>
    simp only [ctStop, ctFind]
    by_cases hm : ctMatch c ref
    · have hm2 : ctMatch (if ctMatch c ref then Container.mk c.name c.cid false else c) ref := by
        rw [ctMatch_ctStop_elem]
        exact hm
      rw [if_pos hm2, if_pos hm]
      simp [hm]
    · have hm2 : ¬ ctMatch (if ctMatch c ref then Container.mk c.name c.cid false else c) ref := by
        rw [ctMatch_ctStop_elem]
        exact hm
      rw [if_neg hm2, if_neg hm]
      exact ih

/-- What the docker teardown does to the container list. -/
theorem containerCleanup_containers (sys : Sys) (i : String) :
    (containerCleanup sys i).containers =
      if sys.psFails = false ∧ (ctFindName sys.containers (sessionName i)).isSome = true then
        ctRemove (ctStop sys.containers (sessionName i)) (sessionName i)
      else sys.containers := by
  unfold containerCleanup container_exists
  cases hps : sys.psFails with
  | true => simp
  | false =>
    simp only [if_false, Bool.false_eq_true]
    cases hn : ctFindName sys.containers (sessionName i) with
    | none => simp
    | some c =>
      simp only [Option.isSome_some, if_true, if_false, Bool.false_eq_true, and_self,
        and_true, true_and]
      have hfind : (ctFind sys.containers (sessionName i)).isSome = true :=
        ctFind_isSome_of_mem_match (ctFindName_some hn).1 (Or.inl (ctFindName_some hn).2)
      obtain ⟨d, hd⟩ := Option.isSome_iff_exists.mp hfind
      unfold stop_container
      rw [hd]
      have hfind2 : (ctFind (ctStop sys.containers (sessionName i)) (sessionName i)).isSome = true := by
        rw [ctFind_ctStop_isSome]
        exact hfind
      obtain ⟨d2, hd2⟩ := Option.isSome_iff_exists.mp hfind2
      unfold remove_container
      simp only
      rw [hd2]
      simp

theorem remPred_dirRemove {dirs : List String} {failP : String → Bool} {a b : AgentRecord}
    (hne : b.working_dir ≠ a.working_dir) :
    remPred (dirRemove dirs a.working_dir) failP b = remPred dirs failP b := by
  unfold remPred
  by_cases hf : failP b.working_dir = true ∧ b.working_dir ∈ dirs
  · rw [if_pos hf, if_pos ⟨hf.1, mem_dirRemove_of_ne hf.2 hne⟩]
  · rw [if_neg hf, if_neg (fun hc => hf ⟨hc.1, (mem_dirRemove hc.2).1⟩)]

/-- Closed form of the `clean_agents` loop: for listed records with pairwise
distinct working directories, the loop counts and removes exactly the records
`remPred` accepts (those whose `rmtree` does not fail), removes their
directories, applies the docker purge to every listed record the docker
branch covers, and touches nothing else. -/
theorem cleanLoop_spec (cm : AgentRecord → Bool) (failP : String → Bool) :
    ∀ (l : List AgentRecord) (n : Nat) (sys : Sys),
      (l.map (fun a => a.working_dir)).Nodup →
      cleanLoop cm failP l (n, sys) =
        (n + (l.filter (remPred sys.dirs failP)).length,
         Sys.mk
           (multiDelete sys.store ((l.filter (remPred sys.dirs failP)).map (fun a => a.id)))
           (multiRemove sys.dirs
             ((l.filter (remPred sys.dirs failP)).map (fun a => a.working_dir)))
           sys.tmux
           (ctCleanupFold cm sys.psFails l sys.containers)
           sys.procs sys.psFails sys.inspectFails) := by
  intro l
  induction l with
  | nil =>
    intro n sys _
    rfl
  | cons a rest ih =>
    intro n sys hnd
    rw [List.map_cons, List.nodup_cons] at hnd
    obtain ⟨hwda, hnd2⟩ := hnd
    show cleanLoop cm failP rest (cleanStep cm failP (n, sys) a) = _
    by_cases hcm : cm a = true
    · have hCd : (containerCleanup sys a.id).dirs = sys.dirs := containerCleanup_dirs sys a.id
      by_cases hfail : failP a.working_dir = true ∧
          a.working_dir ∈ (containerCleanup sys a.id).dirs
      · have hstep : cleanStep cm failP (n, sys) a = (n, containerCleanup sys a.id) := by
          unfold cleanStep
          rw [if_pos hcm, if_pos hfail]
        have hpa : remPred sys.dirs failP a = false := by
          unfold remPred
          rw [if_pos ⟨hfail.1, hCd ▸ hfail.2⟩]
        rw [hstep, ih n _ hnd2]
        refine Prod.ext ?_ (Sys.ext_of _ _ ?_ ?_ ?_ ?_ ?_ ?_ ?_) <;>
          simp only [containerCleanup_store, containerCleanup_dirs, containerCleanup_tmux,
            containerCleanup_procs, containerCleanup_psFails, containerCleanup_inspectFails,
            List.filter_cons, hpa, cond_false, if_false]
        all_goals try rfl
        all_goals rw [containerCleanup_containers]
        all_goals simp only [ctCleanupFold, hcm, true_and]
      · have hstep : cleanStep cm failP (n, sys) a =
            (n + 1,
             ((containerCleanup sys a.id).withDirs
                 (dirRemove (containerCleanup sys a.id).dirs a.working_dir)).withStore
               (storeDelete (containerCleanup sys a.id).store a.id)) := by
          unfold cleanStep
          rw [if_pos hcm, if_neg hfail]
        have hpa : remPred sys.dirs failP a = true := by
          unfold remPred
          rw [if_neg (fun hc => hfail ⟨hc.1, hCd ▸ hc.2⟩)]
        rw [hstep, ih (n + 1) _ hnd2]
        have hfc : ∀ st0 : List String,
            List.filter (remPred (dirRemove st0 a.working_dir) failP) rest =
              List.filter (remPred st0 failP) rest := by
          intro st0
          refine List.filter_congr ?_
          intro b hb
          have hne : b.working_dir ≠ a.working_dir := fun heq =>
            hwda (heq ▸ List.mem_map_of_mem _ hb)
          exact remPred_dirRemove hne
        refine Prod.ext ?_ (Sys.ext_of _ _ ?_ ?_ ?_ ?_ ?_ ?_ ?_) <;>
          simp only [withStore_store, withStore_dirs, withStore_tmux, withStore_containers,
            withStore_procs, withStore_psFails, withStore_inspectFails,
            withDirs_store, withDirs_dirs, withDirs_tmux, withDirs_containers,
            withDirs_procs, withDirs_psFails, withDirs_inspectFails,
            containerCleanup_store, containerCleanup_dirs, containerCleanup_tmux,
            containerCleanup_procs, containerCleanup_psFails, containerCleanup_inspectFails,
            hfc, List.filter_cons, hpa, cond_true, if_true, List.map_cons, List.length_cons]
        all_goals try rfl
        all_goals try omega
        all_goals rw [containerCleanup_containers]
        all_goals simp only [ctCleanupFold, hcm, true_and]
    · have hcmf : cm a = false := by
        cases h : cm a with
        | false => rfl
        | true => exact absurd h hcm
      by_cases hfail : failP a.working_dir = true ∧ a.working_dir ∈ sys.dirs
      · have hstep : cleanStep cm failP (n, sys) a = (n, sys) := by
          unfold cleanStep
          rw [if_neg (fun hc => hcm hc), if_pos hfail]
        have hpa : remPred sys.dirs failP a = false := by
          unfold remPred
          rw [if_pos hfail]
        rw [hstep, ih n _ hnd2]
        refine Prod.ext ?_ (Sys.ext_of _ _ ?_ ?_ ?_ ?_ ?_ ?_ ?_) <;>
          simp only [List.filter_cons, hpa, cond_false, if_false]
        all_goals try rfl
        all_goals simp only [ctCleanupFold]
        all_goals rw [if_neg (fun hc => hcm hc.1)]
      · have hstep : cleanStep cm failP (n, sys) a =
            (n + 1,
             (sys.withDirs (dirRemove sys.dirs a.working_dir)).withStore
               (storeDelete sys.store a.id)) := by
          unfold cleanStep
          rw [if_neg (fun hc => hcm hc), if_neg hfail]
        have hpa : remPred sys.dirs failP a = true := by
          unfold remPred
          rw [if_neg hfail]
        rw [hstep, ih (n + 1) _ hnd2]
        have hfc : List.filter (remPred (dirRemove sys.dirs a.working_dir) failP) rest =
            List.filter (remPred sys.dirs failP) rest := by
          refine List.filter_congr ?_
          intro b hb
          have hne : b.working_dir ≠ a.working_dir := fun heq =>
            hwda (heq ▸ List.mem_map_of_mem _ hb)
          exact remPred_dirRemove hne
        refine Prod.ext ?_ (Sys.ext_of _ _ ?_ ?_ ?_ ?_ ?_ ?_ ?_) <;>
          simp only [withStore_store, withStore_dirs, withStore_tmux, withStore_containers,
            withStore_procs, withStore_psFails, withStore_inspectFails,
            withDirs_store, withDirs_dirs, withDirs_tmux, withDirs_containers,
            withDirs_procs, withDirs_psFails, withDirs_inspectFails,
            hfc, List.filter_cons, hpa, cond_true, if_true, List.map_cons, List.length_cons]
        all_goals try rfl
        all_goals try omega
        all_goals simp only [ctCleanupFold]
        all_goals rw [if_neg (fun hc => hcm hc.1)]

theorem storeList_sublist (st : List AgentRecord) (s : Status) :
    List.Sublist (storeList st (some s)) st := by
  induction st with
  | nil => simp [storeList]
  | cons a rest ih =>
    simp only [storeList]
    split
    · exact List.Sublist.cons₂ a ih
    · exact List.Sublist.cons a ih

theorem storeList_status {st : List AgentRecord} {s : Status} {a : AgentRecord}
    (h : a ∈ storeList st (some s)) : a.status = s := by
  induction st with
  | nil => simp [storeList] at h
  | cons b rest ih =>
    simp only [storeList] at h
    split at h
    · rename_i hb
      rcases List.mem_cons.mp h with h | h
      · exact h ▸ hb
      · exact ih h
    · exact ih h

theorem mem_storeList {st : List AgentRecord} {s : Status} {a : AgentRecord}
    (ha : a ∈ st) (hs : a.status = s) : a ∈ storeList st (some s) := by
  induction st with
  | nil => simp at ha
  | cons b rest ih =>
    simp only [storeList]
    rcases List.mem_cons.mp ha with h | h
    · rw [if_pos (h ▸ hs)]
      exact h ▸ List.mem_cons_self _ _
    · split
      · exact List.mem_cons_of_mem _ (ih h)
      · exact ih h

theorem ctFindName_none {l : List Container} {n : String} (h : ctFindName l n = none) :
    ∀ c ∈ l, c.name ≠ n := by
  induction l with
  | nil => intro c hc; simp at hc
  | cons d rest ih =>
    intro c hc
    simp only [ctFindName] at h
    split at h
    · cases h
    · rename_i hd
      rcases List.mem_cons.mp hc with hc | hc
      · exact hc ▸ hd
      · exact ih h c hc

theorem ctFindName_isSome_of_mem {l : List Container} {n : String} {c : Container}
    (hc : c ∈ l) (hn : c.name = n) : (ctFindName l n).isSome = true := by
  induction l with
  | nil => simp at hc
  | cons d rest ih =>
    simp only [ctFindName]
    split
    · rfl
    · rename_i hd
      rcases List.mem_cons.mp hc with h | h
      · exact absurd (h ▸ hn) hd
      · exact ih h

theorem mem_ctStop {l : List Container} {ref : String} {c : Container}
    (h : c ∈ ctStop l ref) : ∃ c0 ∈ l, c.name = c0.name ∧ c.cid = c0.cid := by
  induction l with
  | nil => simp [ctStop] at h
  | cons d rest ih =>
    simp only [ctStop] at h
    rcases List.mem_cons.mp h with h | h
    · refine ⟨d, List.mem_cons_self _ _, ?_⟩
      subst h
      split <;> simp
    · rcases ih h with ⟨c0, hc0, he⟩
      exact ⟨c0, List.mem_cons_of_mem _ hc0, he⟩

theorem ctCleanupFold_mem {cm : AgentRecord → Bool} {ps : Bool} {l : List AgentRecord} :
    ∀ {cs : List Container} {c : Container}, c ∈ ctCleanupFold cm ps l cs →
      ∃ c0 ∈ cs, c.name = c0.name ∧ c.cid = c0.cid := by
  induction l with
  | nil =>
    intro cs c h
    exact ⟨c, h, rfl, rfl⟩
  | cons a rest ih =>
    intro cs c h
    simp only [ctCleanupFold] at h
    rcases ih h with ⟨c0, hc0, he⟩
    split at hc0
    · rcases mem_ctRemove hc0 with ⟨hc1, _⟩
      rcases mem_ctStop hc1 with ⟨c1, hc1m, he1⟩
      exact ⟨c1, hc1m, he.1.trans he1.1, he.2.trans he1.2⟩
    · exact ⟨c0, hc0, he⟩

/-- Once the clean loop processes a record covered by the docker branch (with
`docker ps` working), no container with that agent's name survives to the
final state. -/
theorem ctCleanupFold_purged {cm : AgentRecord → Bool} {l : List AgentRecord}
    {a : AgentRecord} (hal : a ∈ l) (hcm : cm a = true) :
    ∀ {cs : List Container} {c : Container}, c ∈ ctCleanupFold cm false l cs →
      c.name ≠ sessionName a.id := by
  induction l with
  | nil => simp at hal
  | cons b rest ih =>
    intro cs c h
    simp only [ctCleanupFold] at h
    rcases List.mem_cons.mp hal with hab | hab
    · subst hab
      rcases ctCleanupFold_mem h with ⟨c0, hc0, he⟩
      rw [he.1]
      split at hc0
      · rename_i hcond
        exact fun hn => (mem_ctRemove hc0).2 (Or.inl hn)
      · rename_i hcond
        intro hn
        exact hcond ⟨hcm, trivial, ctFindName_isSome_of_mem hc0 hn⟩
    · exact ih hab h

/-- Full characterization of a `clean_agents` run over the stopped records,
shared by both manager variants through their docker-branch guard `cm`: the
call counts and removes (record and working directory) exactly the stopped
agents whose `rmtree` does not fail, leaves every non-stopped agent's record
and directory in place, never touches the tmux sessions or the process table,
and purges the container of every listed record the docker branch covers. -/
theorem clean_agents_general (cm : AgentRecord → Bool) (sys : Sys) (failP : String → Bool)
    (hid : (List.map (fun a => a.id) sys.store).Nodup)
    (hwd : (List.map (fun a => a.working_dir) sys.store).Nodup)
    (hps : sys.psFails = false) :
    (cleanLoop cm failP (storeList sys.store (some Status.stopped)) (0, sys)).1 =
      ((storeList sys.store (some Status.stopped)).filter (remPred sys.dirs failP)).length ∧
    (∀ a ∈ (storeList sys.store (some Status.stopped)).filter (remPred sys.dirs failP),
       storeGet (cleanLoop cm failP (storeList sys.store (some Status.stopped))
           (0, sys)).2.store a.id = none ∧
       a.working_dir ∉
         (cleanLoop cm failP (storeList sys.store (some Status.stopped)) (0, sys)).2.dirs) ∧
    (∀ b ∈ sys.store, b.status ≠ Status.stopped →
       b ∈ (cleanLoop cm failP (storeList sys.store (some Status.stopped)) (0, sys)).2.store ∧
       (b.working_dir ∈ sys.dirs →
          b.working_dir ∈
            (cleanLoop cm failP (storeList sys.store (some Status.stopped)) (0, sys)).2.dirs)) ∧
    (cleanLoop cm failP (storeList sys.store (some Status.stopped)) (0, sys)).2.tmux =
      sys.tmux ∧
    (cleanLoop cm failP (storeList sys.store (some Status.stopped)) (0, sys)).2.procs =
      sys.procs ∧
    (∀ a ∈ storeList sys.store (some Status.stopped), cm a = true →
       ∀ c ∈ (cleanLoop cm failP (storeList sys.store (some Status.stopped))
           (0, sys)).2.containers,
         c.name ≠ sessionName a.id) := by
  have hsub : List.Sublist (storeList sys.store (some Status.stopped)) sys.store :=
    storeList_sublist _ _
  have hndL : ((storeList sys.store (some Status.stopped)).map
      (fun a => a.working_dir)).Nodup :=
    List.Nodup.sublist (List.Sublist.map _ hsub) hwd
  have hspec := cleanLoop_spec cm failP (storeList sys.store (some Status.stopped)) 0 sys hndL
  rw [hspec]
  refine ⟨Nat.zero_add _, ?_, ?_, rfl, rfl, ?_⟩
  · intro a ha
    exact ⟨storeGet_multiDelete_mem (List.mem_map_of_mem _ ha),
           not_mem_multiRemove (List.mem_map_of_mem _ ha)⟩
  · intro b hb hbs
    have hbid : b.id ∉ List.map (fun a => a.id)
        ((storeList sys.store (some Status.stopped)).filter (remPred sys.dirs failP)) := by
      intro hmem
      rcases List.mem_map.mp hmem with ⟨c, hcK, hcid⟩
      have hcL : c ∈ storeList sys.store (some Status.stopped) := (List.mem_filter.mp hcK).1
      have hcS : c ∈ sys.store := hsub.subset hcL
      have hbc : c = b := List.inj_on_of_nodup_map hid hcS hb hcid
      exact hbs (hbc ▸ storeList_status hcL)
    have hbwd : b.working_dir ∉ List.map (fun a => a.working_dir)
        ((storeList sys.store (some Status.stopped)).filter (remPred sys.dirs failP)) := by
      intro hmem
      rcases List.mem_map.mp hmem with ⟨c, hcK, hcid⟩
      have hcL : c ∈ storeList sys.store (some Status.stopped) := (List.mem_filter.mp hcK).1
      have hcS : c ∈ sys.store := hsub.subset hcL
      have hbc : c = b := List.inj_on_of_nodup_map hwd hcS hb hcid
      exact hbs (hbc ▸ storeList_status hcL)
    exact ⟨mem_multiDelete hb hbid, fun hd => mem_multiRemove_of_not_mem hd hbwd⟩
  · intro a haL hcm c hc
    rw [hps] at hc
    exact ctCleanupFold_purged haL hcm hc

/-- A stopped container-mode agent whose container is still up, a second
stopped agent for the clean batch (`exRecS`). -/
def recW5 : AgentRecord :=
  AgentRecord.mk "w5" "https://x/r.git" ".agents/w5" (some (.str "beadfeed")) .stopped true 1 1

/-- World with two stopped agents (`exRecS` session-mode, `recW5`
container-mode) and one running agent (`exRec1`): tmux session and pane
process of `exRecS` alive, `recW5`'s container RUNNING, docker working. -/
def sysW5 : Sys :=
  Sys.mk [exRecS, recW5, exRec1] [".agents/s1", ".agents/w5", ".agents/a1"]
    ["agent-s1"] [Container.mk "agent-w5" "beadfeed" true] [12] false false

/-! ## Claim theorems -/

/-- C1: `get`/`list` never return a record with status `running` whose backend
unit (tmux-session process or container) is not alive: in both manager
variants a stale `running` record is demoted to `stopped` within the same
call, in the store and in the returned value.  `StoreInv` and `CidSane` are
the record/world sanity conditions every manager-created state satisfies
(running records carry a truthy pid; container-mode records store the
container id, not an integer pid; container ids do not collide with agent
session names). -/
theorem c1_reads_never_return_stale_running (sys : Sys) (now : Nat)
    (hInv : StoreInv sys) (hcid : CidSane sys) :
    (∀ i b, (AM.get_agent sys now i).1 = some b → b.status = .running →
        backendAlive sys b = true) ∧
    (∀ i a, storeGet sys.store i = some a → a.status = .running →
        backendAlive sys a = false →
        (AM.get_agent sys now i).1 = some (withStatus a .stopped) ∧
        storeGet (AM.get_agent sys now i).2.store i =
          some (touch (withStatus a .stopped) now)) ∧
    (∀ filt b, b ∈ (AM.list_agents sys now filt).1 → b.status = .running →
        backendAlive sys b = true) ∧
    (∀ i b, (FL.get_agent sys now i).1 = some b → b.status = .running →
        containerAliveName sys (sessionName b.id) = true) ∧
    (∀ i a, storeGet sys.store i = some a → a.status = .running →
        containerAliveName sys (sessionName a.id) = false →
        (FL.get_agent sys now i).1 = some (withStatus a .stopped) ∧
        storeGet (FL.get_agent sys now i).2.store i =
          some (touch (withStatus a .stopped) now)) ∧
    (∀ filt b, b ∈ (FL.list_agents sys now filt).1 → b.status = .running →
        containerAliveName sys (sessionName b.id) = true) := by
  refine ⟨?_, ?_, ?_, ?_, ?_, ?_⟩
  · intro i b hb hrun
    unfold AM.get_agent at hb
    cases hga : storeGet sys.store i with
    | none => rw [hga] at hb; cases hb
    | some a =>
      rw [hga] at hb
      simp only [Option.some_inj] at hb
      rcases AM.syncRecord_running_alive (hInv a (storeGet_mem hga)) (hb ▸ hrun)
        with ⟨heq, halive⟩
      rw [← hb, heq] at hrun ⊢
      exact halive
  · intro i a hga hrun hdead
    have hd := @AM.syncRecord_demotes sys now a
      (hInv a (storeGet_mem hga)) hrun hdead
    have hid : a.id = i := storeGet_id hga
    constructor
    · unfold AM.get_agent
      rw [hga]
      show some (AM.syncRecord sys now a).1 = some (withStatus a .stopped)
      rw [hd]
    · unfold AM.get_agent
      rw [hga]
      show storeGet (AM.syncRecord sys now a).2.store i =
        some (touch (withStatus a .stopped) now)
      rw [hd]
      simp only [withStore_store, hid]
      rw [storeGet_setStatus_self, hga]
      rfl
  · intro filt b hb hrun
    unfold AM.list_agents at hb
    rcases AM.listLoop_mem hb with ⟨a, hal, sys2, hw, hbeq⟩
    rcases AM.syncRecord_running_alive (hInv a (storeList_subset hal)) (hbeq ▸ hrun)
      with ⟨heq, halive⟩
    rw [hbeq, heq]
    rw [← backendAlive_congr hw]
    exact halive
  · intro i b hb hrun
    unfold FL.get_agent at hb
    cases hga : storeGet sys.store i with
    | none => rw [hga] at hb; cases hb
    | some a =>
      rw [hga] at hb
      simp only [Option.some_inj] at hb
      have hca : ∀ c ∈ sys.containers, c.cid ≠ sessionName a.id :=
        fun c hc => hcid c hc a (storeGet_mem hga)
      rcases FL.syncRecord_running_alive_fl hca (hb ▸ hrun) with ⟨heq, halive⟩
      rw [← hb, heq] at hrun ⊢
      exact halive
  · intro i a hga hrun hdead
    have hca : ∀ c ∈ sys.containers, c.cid ≠ sessionName a.id :=
      fun c hc => hcid c hc a (storeGet_mem hga)
    have hd := @FL.syncRecord_demotes_fl sys now a hca hrun hdead
    have hid : a.id = i := storeGet_id hga
    constructor
    · unfold FL.get_agent
      rw [hga]
      show some (FL.syncRecord sys now a).1 = some (withStatus a .stopped)
      rw [hd]
    · unfold FL.get_agent
      rw [hga]
      show storeGet (FL.syncRecord sys now a).2.store i =
        some (touch (withStatus a .stopped) now)
      rw [hd]
      simp only [withStore_store, hid]
      rw [storeGet_setStatus_self, hga]
      rfl
  · intro filt b hb hrun
    unfold FL.list_agents at hb
    rcases FL.listLoop_mem_fl hb with ⟨a, hal, sys2, hw, hbeq⟩
    have hca : ∀ c ∈ sys2.containers, c.cid ≠ sessionName a.id := by
      rw [hw.2.2.1]
      exact fun c hc => hcid c hc a (storeList_subset hal)
    rcases FL.syncRecord_running_alive_fl hca (hbeq ▸ hrun) with ⟨heq, halive⟩
    rw [hbeq, heq]
    rw [← containerAliveName_congr hw]
    exact halive

/-- A running session-mode record whose recorded process is dead, in a world
with no containers: both variants demote it on read. -/
def recW1 : AgentRecord :=
  AgentRecord.mk "a1" "https://x/r.git" ".agents/a1" (some (.int 7)) .running false 1 1

/-- World for `recW1`: pid 7 is not alive and no container exists. -/
def sysW1 : Sys := Sys.mk [recW1] [".agents/a1"] [] [] [] false false

theorem c1_reads_never_return_stale_running_witness :
    StoreInv sysW1 ∧ CidSane sysW1 ∧
    (storeGet sysW1.store "a1" = some recW1 ∧ recW1.status = .running ∧
       backendAlive sysW1 recW1 = false ∧
       (AM.get_agent sysW1 5 "a1").1 = some (withStatus recW1 .stopped) ∧
       storeGet (AM.get_agent sysW1 5 "a1").2.store "a1" =
         some (touch (withStatus recW1 .stopped) 5)) ∧
    (containerAliveName sysW1 (sessionName recW1.id) = false ∧
       (FL.get_agent sysW1 5 "a1").1 = some (withStatus recW1 .stopped) ∧
       storeGet (FL.get_agent sysW1 5 "a1").2.store "a1" =
         some (touch (withStatus recW1 .stopped) 5)) :=
  ⟨by decide, by decide,
   ⟨by decide, by decide, by decide,
    ((c1_reads_never_return_stale_running sysW1 5 (by decide) (by decide)).2.1
      "a1" recW1 (by decide) (by decide) (by decide)).1,
    ((c1_reads_never_return_stale_running sysW1 5 (by decide) (by decide)).2.1
      "a1" recW1 (by decide) (by decide) (by decide)).2⟩,
   ⟨by decide,
    ((c1_reads_never_return_stale_running sysW1 5 (by decide) (by decide)).2.2.2.2.1
      "a1" recW1 (by decide) (by decide) (by decide)).1,
    ((c1_reads_never_return_stale_running sysW1 5 (by decide) (by decide)).2.2.2.2.1
      "a1" recW1 (by decide) (by decide) (by decide)).2⟩⟩

/-- C2: after `spawn` returns — normally or by raising — the record it created
is never left `spawning`: on success it has status `running` (with a pid set)
under the id `spawn` returns, and on any failure every record under the
spawned id is marked `error`, the working directory has been removed, and the
raised error is a RuntimeError wrapping the cause, in both manager variants
(for `agent_manager`, under the validation preconditions that let `spawn`
reach the guarded block). -/
theorem c2_spawn_ends_running_or_error (sys : Sys) (env : SpawnEnv) (repo_url : String)
    (uc : Bool) (hcli : env.cliAvailable = true)
    (hurl : validate_repo_url repo_url = true) :
    (∀ i, (AM.spawn_agent sys env repo_url uc).1 = .ok i →
        i = env.agent_id ∧
        ∃ rec, storeGet (AM.spawn_agent sys env repo_url uc).2.store env.agent_id = some rec ∧
          rec.status = .running ∧ rec.pid.isSome = true) ∧
    (∀ e, (AM.spawn_agent sys env repo_url uc).1 = .error e →
        SpawnFailSpec (AM.spawn_agent sys env repo_url uc) env.agent_id
          (get_agent_working_dir env.agent_id)) ∧
    (∀ i, (FL.spawn_agent sys env repo_url).1 = .ok i →
        i = env.agent_id ∧
        ∃ rec, storeGet (FL.spawn_agent sys env repo_url).2.store env.agent_id = some rec ∧
          rec.status = .running ∧ rec.pid.isSome = true) ∧
    (∀ e, (FL.spawn_agent sys env repo_url).1 = .error e →
        SpawnFailSpec (FL.spawn_agent sys env repo_url) env.agent_id
          (get_agent_working_dir env.agent_id)) := by
  refine ⟨?_, ?_, ?_, ?_⟩
  · intro i hi
    rcases AM.spawn_agent_shape sys env repo_url uc hcli hurl with
      ⟨p, sys2, heq, hget⟩ | ⟨cause, sysX, heq⟩
    · rw [heq] at hi ⊢
      simp only [Except.ok.injEq] at hi
      refine ⟨hi.symm, ?_⟩
      simp only [withStore_store]
      rw [storeGet_setPidStatus_self, hget]
      exact ⟨_, rfl, by simp, by simp⟩
    · rw [heq] at hi
      simp [spawnFail] at hi
  · intro e he
    rcases AM.spawn_agent_shape sys env repo_url uc hcli hurl with
      ⟨p, sys2, heq, hget⟩ | ⟨cause, sysX, heq⟩
    · rw [heq] at he
      simp at he
    · rw [heq]
      exact spawnFail_spec _ _ _ _ _
  · intro i hi
    rcases FL.spawn_agent_shape_fl sys env repo_url with
      ⟨p, sys2, heq, hget⟩ | ⟨cause, sysX, heq⟩
    · rw [heq] at hi ⊢
      simp only [Except.ok.injEq] at hi
      refine ⟨hi.symm, ?_⟩
      simp only [withStore_store]
      rw [storeGet_setPidStatus_self, hget]
      exact ⟨_, rfl, by simp, by simp⟩
    · rw [heq] at hi
      simp [spawnFail] at hi
  · intro e he
    rcases FL.spawn_agent_shape_fl sys env repo_url with
      ⟨p, sys2, heq, hget⟩ | ⟨cause, sysX, heq⟩
    · rw [heq] at he
      simp at he
    · rw [heq]
      exact spawnFail_spec _ _ _ _ _

theorem c2_spawn_ends_running_or_error_witness :
    (envOk.cliAvailable = true ∧ validate_repo_url "https://x/r.git" = true) ∧
    ((AM.spawn_agent sysEmpty envOk "https://x/r.git" false).1 = .ok "b2" ∧
       ("b2" = envOk.agent_id ∧
        ∃ rec, storeGet (AM.spawn_agent sysEmpty envOk "https://x/r.git" false).2.store
            envOk.agent_id = some rec ∧ rec.status = .running ∧ rec.pid.isSome = true)) ∧
    ((AM.spawn_agent sysEmpty envClone "https://x/r.git" false).1 =
        .error (.runtimeErr "Failed to spawn agent: git clone failed") ∧
       SpawnFailSpec (AM.spawn_agent sysEmpty envClone "https://x/r.git" false)
         envClone.agent_id (get_agent_working_dir envClone.agent_id)) ∧
    ((FL.spawn_agent sysEmpty envOk "https://x/r.git").1 = .ok "b2" ∧
       ("b2" = envOk.agent_id ∧
        ∃ rec, storeGet (FL.spawn_agent sysEmpty envOk "https://x/r.git").2.store
            envOk.agent_id = some rec ∧ rec.status = .running ∧ rec.pid.isSome = true)) ∧
    ((FL.spawn_agent sysEmpty envClone "https://x/r.git").1 =
        .error (.runtimeErr "Failed to spawn agent: git clone failed") ∧
       SpawnFailSpec (FL.spawn_agent sysEmpty envClone "https://x/r.git")
         envClone.agent_id (get_agent_working_dir envClone.agent_id)) :=
  ⟨⟨by decide, by decide⟩,
   ⟨by rfl, (c2_spawn_ends_running_or_error sysEmpty envOk "https://x/r.git" false
      (by decide) (by decide)).1 "b2" (by rfl)⟩,
   ⟨by rfl, (c2_spawn_ends_running_or_error sysEmpty envClone "https://x/r.git" false
      (by decide) (by decide)).2.1 (.runtimeErr "Failed to spawn agent: git clone failed")
      (by rfl)⟩,
   ⟨by rfl, (c2_spawn_ends_running_or_error sysEmpty envOk "https://x/r.git" false
      (by decide) (by decide)).2.2.1 "b2" (by rfl)⟩,
   ⟨by rfl, (c2_spawn_ends_running_or_error sysEmpty envClone "https://x/r.git" false
      (by decide) (by decide)).2.2.2 (.runtimeErr "Failed to spawn agent: git clone failed")
      (by rfl)⟩⟩

/-- C3: for an existing agent, `stop(id, remove_workdir=true)` makes a
subsequent `get(id)` return none and removes the working directory from disk;
`stop(id, remove_workdir=false)` makes a subsequent `get(id)` return a record
with status `stopped` and leaves the directory set unchanged (the working
directory keeps existing), in both manager variants. -/
theorem c3_stop_semantics (sys : Sys) (now : Nat) (i : String) (a : AgentRecord)
    (ha : storeGet sys.store i = some a) :
    ((AM.stop_agent sys now i true).1 = .ok true ∧
       (AM.get_agent (AM.stop_agent sys now i true).2 now i).1 = none ∧
       a.working_dir ∉ (AM.stop_agent sys now i true).2.dirs) ∧
    ((AM.stop_agent sys now i false).1 = .ok true ∧
       (∃ b, (AM.get_agent (AM.stop_agent sys now i false).2 now i).1 = some b ∧
          b.status = .stopped) ∧
       (AM.stop_agent sys now i false).2.dirs = sys.dirs) ∧
    ((FL.stop_agent sys now i true).1 = .ok true ∧
       (FL.get_agent (FL.stop_agent sys now i true).2 now i).1 = none ∧
       a.working_dir ∉ (FL.stop_agent sys now i true).2.dirs) ∧
    ((FL.stop_agent sys now i false).1 = .ok true ∧
       (∃ b, (FL.get_agent (FL.stop_agent sys now i false).2 now i).1 = some b ∧
          b.status = .stopped) ∧
       (FL.stop_agent sys now i false).2.dirs = sys.dirs) := by
  rcases AM.stop_agent_found sys now i a ha with ⟨ham1, ham2⟩
  rcases FL.stop_agent_found_fl sys now i a ha with ⟨hfl1, hfl2⟩
  refine ⟨⟨by rw [ham1], ?_, ?_⟩, ⟨by rw [ham2], ?_, ?_⟩,
    ⟨by rw [hfl1], ?_, ?_⟩, ⟨by rw [hfl2], ?_, ?_⟩⟩
  · rw [ham1]
    unfold AM.get_agent
    simp only [withStore_store, storeGet_delete_self]
  · rw [ham1]
    simp only [withStore_dirs, withDirs_dirs]
    exact not_mem_dirRemove _ _
  · rw [ham2]
    refine ⟨touch (withStatus a .stopped) now, ?_, rfl⟩
    unfold AM.get_agent
    simp only [withStore_store]
    rw [storeGet_setStatus_self, stopBackendCleanup_store, ha]
    simp only [Option.map_some']
    rw [AM.syncRecord_not_running (by simp)]
  · rw [ham2]
    simp only [withStore_dirs]
    rw [stopBackendCleanup_dirs]
  · rw [hfl1]
    unfold FL.get_agent
    simp only [withStore_store, storeGet_delete_self]
  · rw [hfl1]
    simp only [withStore_dirs, withDirs_dirs]
    exact not_mem_dirRemove _ _
  · rw [hfl2]
    refine ⟨touch (withStatus a .stopped) now, ?_, rfl⟩
    unfold FL.get_agent
    simp only [withStore_store]
    rw [storeGet_setStatus_self, containerCleanup_store, ha]
    simp only [Option.map_some']
    rw [FL.syncRecord_not_running_fl (by simp)]
  · rw [hfl2]
    simp only [withStore_dirs]
    rw [containerCleanup_dirs]

theorem c3_stop_semantics_witness :
    storeGet exSys1.store "a1" = some exRec1 ∧
    ((AM.stop_agent exSys1 5 "a1" true).1 = .ok true ∧
       (AM.get_agent (AM.stop_agent exSys1 5 "a1" true).2 5 "a1").1 = none ∧
       exRec1.working_dir ∉ (AM.stop_agent exSys1 5 "a1" true).2.dirs) ∧
    ((AM.stop_agent exSys1 5 "a1" false).1 = .ok true ∧
       (∃ b, (AM.get_agent (AM.stop_agent exSys1 5 "a1" false).2 5 "a1").1 = some b ∧
          b.status = .stopped) ∧
       (AM.stop_agent exSys1 5 "a1" false).2.dirs = exSys1.dirs) ∧
    ((FL.stop_agent exSys1 5 "a1" true).1 = .ok true ∧
       (FL.get_agent (FL.stop_agent exSys1 5 "a1" true).2 5 "a1").1 = none ∧
       exRec1.working_dir ∉ (FL.stop_agent exSys1 5 "a1" true).2.dirs) ∧
    ((FL.stop_agent exSys1 5 "a1" false).1 = .ok true ∧
       (∃ b, (FL.get_agent (FL.stop_agent exSys1 5 "a1" false).2 5 "a1").1 = some b ∧
          b.status = .stopped) ∧
       (FL.stop_agent exSys1 5 "a1" false).2.dirs = exSys1.dirs) :=
  ⟨by decide,
   (c3_stop_semantics exSys1 5 "a1" exRec1 (by decide)).1,
   (c3_stop_semantics exSys1 5 "a1" exRec1 (by decide)).2.1,
   (c3_stop_semantics exSys1 5 "a1" exRec1 (by decide)).2.2.1,
   (c3_stop_semantics exSys1 5 "a1" exRec1 (by decide)).2.2.2⟩

/-- C9: the backend liveness probes are total Boolean functions that report
`false` — and raise nothing — whenever no live unit exists: a string or dead
pid for `utils.is_process_running`, and for
`ContainerAgentProcess.is_running` an absent container (by name or held id),
a failing `docker inspect`, or a failing `docker ps`. -/
theorem c9_liveness_probe_returns_false (sys : Sys) :
    (∀ s, is_process_running sys (.str s) = false) ∧
    (∀ n : Int, sys.procs.contains n = false → is_process_running sys (.int n) = false) ∧
    (∀ name, ctFindName sys.containers name = none →
       ContainerAgentProcess.is_running sys none name = false) ∧
    (∀ cid name, ctFind sys.containers cid = none →
       ContainerAgentProcess.is_running sys (some cid) name = false) ∧
    (∀ cid name, sys.inspectFails = true →
       ContainerAgentProcess.is_running sys cid name = false) ∧
    (∀ name, sys.psFails = true → ContainerAgentProcess.is_running sys none name = false) := by
  refine ⟨fun s => rfl, fun n h => ?_, fun name h => ?_, fun cid name h => ?_,
    fun cid name h => ?_, fun name h => ?_⟩
  · exact h
  · simp [ContainerAgentProcess.is_running, container_exists, h]
  · simp [ContainerAgentProcess.is_running, get_container_info, h]
  · unfold ContainerAgentProcess.is_running
    split
    · rfl
    · simp [get_container_info, h]
  · simp [ContainerAgentProcess.is_running, container_exists, h]

/-- Witness for C9 at a concrete world whose docker CLI invocations fail and
whose process table lacks pid 5. -/
def sysW9 : Sys := Sys.mk [] [] [] [Container.mk "agent-q" "ff" true] [3] true true

theorem c9_liveness_probe_returns_false_witness :
    is_process_running sysW9 (.str "abc") = false ∧
    (sysW9.procs.contains 5 = false ∧ is_process_running sysW9 (.int 5) = false) ∧
    (ctFindName sysW9.containers "agent-z" = none ∧
       ContainerAgentProcess.is_running sysW9 none "agent-z" = false) ∧
    (ctFind sysW9.containers "zz" = none ∧
       ContainerAgentProcess.is_running sysW9 (some "zz") "agent-q" = false) ∧
    (sysW9.inspectFails = true ∧
       ContainerAgentProcess.is_running sysW9 (some "ff") "agent-q" = false) ∧
    (sysW9.psFails = true ∧ ContainerAgentProcess.is_running sysW9 none "agent-q" = false) :=
  ⟨(c9_liveness_probe_returns_false sysW9).1 "abc",
   ⟨by decide, (c9_liveness_probe_returns_false sysW9).2.1 5 (by decide)⟩,
   ⟨by decide, (c9_liveness_probe_returns_false sysW9).2.2.1 "agent-z" (by decide)⟩,
   ⟨by decide, (c9_liveness_probe_returns_false sysW9).2.2.2.1 "zz" "agent-q" (by decide)⟩,
   ⟨by decide, (c9_liveness_probe_returns_false sysW9).2.2.2.2.1 (some "ff") "agent-q" (by decide)⟩,
   ⟨by decide, (c9_liveness_probe_returns_false sysW9).2.2.2.2.2 "agent-q" (by decide)⟩⟩

/-- C10: in the `agent_manager` variant, a container-mode record with status
`running` and a non-empty container-id string in its pid column is demoted to
`stopped` by `get_agent` — in the returned record and in the store — no matter
what state the container itself is in, because the reconciliation probe feeds
the stored string to the host-process check `is_process_running`, which
returns `false` for every non-integer value; consequently `list_agents` never
returns such a record as `running` either. -/
theorem c10_container_pid_always_demoted (sys : Sys) (now : Nat) :
    (∀ i a s, storeGet sys.store i = some a → a.container_mode = true →
        a.status = .running → a.pid = some (.str s) → s ≠ "" →
        (AM.get_agent sys now i).1 = some (withStatus a .stopped) ∧
        storeGet (AM.get_agent sys now i).2.store i =
          some (touch (withStatus a .stopped) now)) ∧
    (∀ filt b, b ∈ (AM.list_agents sys now filt).1 → b.container_mode = true →
        b.status = .running → ∀ s, s ≠ "" → b.pid ≠ some (.str s)) := by
  constructor
  · intro i a s hget _ hrun hpid hs
    have hid : a.id = i := storeGet_id hget
    have htr : pidTruthy a.pid = true := by rw [hpid]; simpa [pidTruthy] using hs
    rcases AM.syncRecord_cases sys now a with ⟨heq, hcase⟩ | ⟨p, hp, _, _, halive, heq⟩
    · rcases hcase with h | h | ⟨p, hp, halive⟩
      · exact absurd hrun h
      · rw [htr] at h; cases h
      · rw [hpid] at hp; cases hp; simp [is_process_running] at halive
    · constructor
      · simp [AM.get_agent, hget, heq]
      · simp only [AM.get_agent, hget, heq, withStore_store, hid]
        rw [storeGet_setStatus_self, hget]
        rfl
  · intro filt b hb hcm hrun s hs hpid
    rcases AM.listLoop_mem hb with ⟨a, _, sys2, _, hbeq⟩
    exact AM.syncRecord_no_str_running hs (hbeq ▸ hrun) (hbeq ▸ hpid)

/-- A container-mode record whose pid column holds an integer that is alive as
a host process: the reconciliation probe then passes, so `list_agents` returns
it as `running` — used only to instantiate the second conjunct of C10. -/
def exRecW10 : AgentRecord :=
  AgentRecord.mk "w" "https://x/r.git" ".agents/w" (some (.int 7)) .running true 1 1

/-- World for `exRecW10`. -/
def exSysW10 : Sys := Sys.mk [exRecW10] [".agents/w"] [] [] [7] false false

theorem c10_container_pid_always_demoted_witness :
    (storeGet exSysC.store "c3" = some exRecC ∧ exRecC.container_mode = true ∧
       exRecC.status = .running ∧ exRecC.pid = some (.str "deadbeef") ∧
       (AM.get_agent exSysC 5 "c3").1 = some (withStatus exRecC .stopped) ∧
       storeGet (AM.get_agent exSysC 5 "c3").2.store "c3" =
         some (touch (withStatus exRecC .stopped) 5)) ∧
    (exRecW10 ∈ (AM.list_agents exSysW10 5 none).1 ∧ exRecW10.container_mode = true ∧
       exRecW10.status = .running ∧ exRecW10.pid ≠ some (.str "zz")) :=
  ⟨⟨by decide, by decide, by decide, by decide,
    ((c10_container_pid_always_demoted exSysC 5).1 "c3" exRecC "deadbeef"
      (by decide) (by decide) (by decide) (by decide) (by decide)).1,
    ((c10_container_pid_always_demoted exSysC 5).1 "c3" exRecC "deadbeef"
      (by decide) (by decide) (by decide) (by decide) (by decide)).2⟩,
   ⟨by decide, by decide, by decide,
    (c10_container_pid_always_demoted exSysW10 5).2 none exRecW10
      (by decide) (by decide) (by decide) "zz" (by decide)⟩⟩

theorem ctFind_none {l : List Container} {ref : String} (h : ctFind l ref = none) :
    ∀ d ∈ l, ¬ ctMatch d ref := by
  induction l with
  | nil => intro d hd; simp at hd
  | cons c rest ih =>
    intro d hd
    simp only [ctFind] at h
    split at h
    · cases h
    · rename_i hc
      rcases List.mem_cons.mp hd with hd | hd
      · exact hd ▸ hc
      · exact ih h d hd

/-- `docker rm -f` by a reference that some container matches leaves no
container matching that reference. -/
theorem remove_container_cid_gone {s : Sys} {cid : String} {c : Container}
    (hhead : ∃ d ∈ s.containers, ctMatch d cid)
    (h : c ∈ (remove_container s cid true).1.containers) : ¬ ctMatch c cid := by
  unfold remove_container at h
  cases hf : ctFind s.containers cid with
  | none =>
    rcases hhead with ⟨d, hd, hm⟩
    exact absurd hm (ctFind_none hf d hd)
  | some d =>
    rw [hf] at h
    simp only [Bool.not_true, Bool.and_false] at h
    exact (mem_ctRemove h).2

/-- C8: `attach` fails `NotFoundError` on a missing record; when the record
exists but the backend probe reports no live unit it demotes a `running`
record to `stopped` in the store and fails with a RuntimeError (the spec's
StaleAgentError); otherwise it delegates to the backend's blocking attach.
In `agent_manager` the probe is container existence (container mode) or tmux
session existence (session mode); in fletcher it is container existence and
then the container running flag. -/
theorem c8_attach_semantics (sys : Sys) (now : Nat) (i : String) :
    (storeGet sys.store i = none →
       AM.attach_agent sys now i = (.error (.notFound i), sys) ∧
       FL.attach_agent sys now i = (.error (.notFound i), sys)) ∧
    (∀ a, storeGet sys.store i = some a → a.container_mode = true →
       container_exists sys (sessionName i) = false →
       (AM.attach_agent sys now i).1 =
         .error (.runtimeErr ("No container found for agent " ++ i)) ∧
       (a.status = .running →
         storeGet (AM.attach_agent sys now i).2.store i =
           some (touch (withStatus a .stopped) now)) ∧
       (a.status ≠ .running → (AM.attach_agent sys now i).2 = sys)) ∧
    (∀ a, storeGet sys.store i = some a → a.container_mode = false →
       sys.tmux.contains (sessionName i) = false →
       (AM.attach_agent sys now i).1 =
         .error (.runtimeErr ("No tmux session found for agent " ++ i)) ∧
       (a.status = .running →
         storeGet (AM.attach_agent sys now i).2.store i =
           some (touch (withStatus a .stopped) now)) ∧
       (a.status ≠ .running → (AM.attach_agent sys now i).2 = sys)) ∧
    (∀ a, storeGet sys.store i = some a → a.container_mode = true →
       container_exists sys (sessionName i) = true →
       AM.attach_agent sys now i = ContainerAgentProcess.attach_interactive sys i) ∧
    (∀ a, storeGet sys.store i = some a → a.container_mode = false →
       sys.tmux.contains (sessionName i) = true →
       AM.attach_agent sys now i = (.ok (), sys)) ∧
    (∀ a, storeGet sys.store i = some a →
       container_exists sys (sessionName i) = false →
       (FL.attach_agent sys now i).1 =
         .error (.runtimeErr ("No container found for agent " ++ i)) ∧
       (a.status = .running →
         storeGet (FL.attach_agent sys now i).2.store i =
           some (touch (withStatus a .stopped) now)) ∧
       (a.status ≠ .running → (FL.attach_agent sys now i).2 = sys)) ∧
    (∀ a, storeGet sys.store i = some a →
       container_exists sys (sessionName i) = true →
       ContainerAgentProcess.is_running sys none (sessionName i) = false →
       (FL.attach_agent sys now i).1 =
         .error (.runtimeErr ("Container for agent " ++ i ++ " is not running")) ∧
       (a.status = .running →
         storeGet (FL.attach_agent sys now i).2.store i =
           some (touch (withStatus a .stopped) now)) ∧
       (a.status ≠ .running → (FL.attach_agent sys now i).2 = sys)) ∧
    (∀ a, storeGet sys.store i = some a →
       container_exists sys (sessionName i) = true →
       ContainerAgentProcess.is_running sys none (sessionName i) = true →
       FL.attach_agent sys now i = ContainerAgentProcess.attach_interactive sys i) := by
  refine ⟨?_, ?_, ?_, ?_, ?_, ?_, ?_, ?_⟩
  · intro h
    constructor
    · unfold AM.attach_agent
      rw [h]
    · unfold FL.attach_agent
      rw [h]
  · intro a ha hcm hex
    have hid : a.id = i := storeGet_id ha
    have hres : AM.attach_agent sys now i =
        (.error (.runtimeErr ("No container found for agent " ++ i)),
         demoteIfRunning sys now a) := by
      unfold AM.attach_agent
      rw [ha]
      simp [hcm, hex]
    rw [hres]
    refine ⟨rfl, fun hrun => ?_, fun hnrun => ?_⟩
    · unfold demoteIfRunning
      rw [if_pos hrun]
      simp only [withStore_store, hid]
      rw [storeGet_setStatus_self, ha]
      rfl
    · unfold demoteIfRunning
      rw [if_neg hnrun]
  · intro a ha hcm hex
    have hid : a.id = i := storeGet_id ha
    have hres : AM.attach_agent sys now i =
        (.error (.runtimeErr ("No tmux session found for agent " ++ i)),
         demoteIfRunning sys now a) := by
      unfold AM.attach_agent
      rw [ha]
      simp [hcm, hex]
      simpa using hex
    rw [hres]
    refine ⟨rfl, fun hrun => ?_, fun hnrun => ?_⟩
    · unfold demoteIfRunning
      rw [if_pos hrun]
      simp only [withStore_store, hid]
      rw [storeGet_setStatus_self, ha]
      rfl
    · unfold demoteIfRunning
      rw [if_neg hnrun]
  · intro a ha hcm hex
    unfold AM.attach_agent
    rw [ha]
    simp [hcm, hex]
  · intro a ha hcm hex
    unfold AM.attach_agent
    rw [ha]
    simp [hcm, hex]
    simpa using hex
  · intro a ha hex
    have hid : a.id = i := storeGet_id ha
    have hres : FL.attach_agent sys now i =
        (.error (.runtimeErr ("No container found for agent " ++ i)),
         demoteIfRunning sys now a) := by
      unfold FL.attach_agent
      rw [ha]
      simp [hex]
    rw [hres]
    refine ⟨rfl, fun hrun => ?_, fun hnrun => ?_⟩
    · unfold demoteIfRunning
      rw [if_pos hrun]
      simp only [withStore_store, hid]
      rw [storeGet_setStatus_self, ha]
      rfl
    · unfold demoteIfRunning
      rw [if_neg hnrun]
  · intro a ha hex hpr
    have hid : a.id = i := storeGet_id ha
    have hres : FL.attach_agent sys now i =
        (.error (.runtimeErr ("Container for agent " ++ i ++ " is not running")),
         demoteIfRunning sys now a) := by
      unfold FL.attach_agent
      rw [ha]
      simp [hex, hpr]
    rw [hres]
    refine ⟨rfl, fun hrun => ?_, fun hnrun => ?_⟩
    · unfold demoteIfRunning
      rw [if_pos hrun]
      simp only [withStore_store, hid]
      rw [storeGet_setStatus_self, ha]
      rfl
    · unfold demoteIfRunning
      rw [if_neg hnrun]
  · intro a ha hex hpr
    unfold FL.attach_agent
    rw [ha]
    simp [hex, hpr]

/-- World for the stale-attach half of the C8 witness: the container-mode
record claims `running` but no container exists. -/
def sysW8 : Sys := Sys.mk [exRecC] [".agents/c3"] [] [] [] false false

theorem c8_attach_semantics_witness :
    (storeGet sysEmpty.store "zz" = none ∧
       AM.attach_agent sysEmpty 5 "zz" = (.error (.notFound "zz"), sysEmpty) ∧
       FL.attach_agent sysEmpty 5 "zz" = (.error (.notFound "zz"), sysEmpty)) ∧
    (storeGet sysW8.store "c3" = some exRecC ∧ exRecC.container_mode = true ∧
       container_exists sysW8 (sessionName "c3") = false ∧
       (AM.attach_agent sysW8 5 "c3").1 =
         .error (.runtimeErr "No container found for agent c3") ∧
       exRecC.status = .running ∧
       storeGet (AM.attach_agent sysW8 5 "c3").2.store "c3" =
         some (touch (withStatus exRecC .stopped) 5)) ∧
    (container_exists exSysC (sessionName "c3") = true ∧
       ContainerAgentProcess.is_running exSysC none (sessionName "c3") = true ∧
       AM.attach_agent exSysC 5 "c3" = ContainerAgentProcess.attach_interactive exSysC "c3" ∧
       FL.attach_agent exSysC 5 "c3" = ContainerAgentProcess.attach_interactive exSysC "c3") ∧
    (storeGet exSys1.store "a1" = some exRec1 ∧ exRec1.container_mode = false ∧
       exSys1.tmux.contains (sessionName "a1") = true ∧
       AM.attach_agent exSys1 5 "a1" = (.ok (), exSys1)) :=
  ⟨⟨by decide, ((c8_attach_semantics sysEmpty 5 "zz").1 (by decide)).1,
    ((c8_attach_semantics sysEmpty 5 "zz").1 (by decide)).2⟩,
   ⟨by decide, by decide, by decide,
    ((c8_attach_semantics sysW8 5 "c3").2.1 exRecC (by decide) (by decide) (by decide)).1,
    by decide,
    ((c8_attach_semantics sysW8 5 "c3").2.1 exRecC (by decide) (by decide) (by decide)).2.1
      (by decide)⟩,
   ⟨by decide, by decide,
    (c8_attach_semantics exSysC 5 "c3").2.2.2.1 exRecC (by decide) (by decide) (by decide),
    (c8_attach_semantics exSysC 5 "c3").2.2.2.2.2.2.2 exRecC (by decide) (by decide) (by decide)⟩,
   ⟨by decide, by decide, by decide,
    (c8_attach_semantics exSys1 5 "a1").2.2.2.2.1 exRec1 (by decide) (by decide) (by decide)⟩⟩

theorem AM.stop_agent_notFound (sys : Sys) (now : Nat) (i : String) (b : Bool)
    (h : storeGet sys.store i = none) :
    AM.stop_agent sys now i b = (.error (.notFound i), sys) := by
  unfold AM.stop_agent
  rw [h]

theorem FL.stop_agent_notFound_fl (sys : Sys) (now : Nat) (i : String) (b : Bool)
    (h : storeGet sys.store i = none) :
    FL.stop_agent sys now i b = (.error (.notFound i), sys) := by
  unfold FL.stop_agent
  rw [h]

theorem AM.delete_agent_notFound (sys : Sys) (i : String)
    (h : storeGet sys.store i = none) :
    AM.delete_agent sys i = (.error (.notFound i), sys) := by
  unfold AM.delete_agent
  rw [h]

theorem FL.delete_agent_notFound_fl (sys : Sys) (i : String)
    (h : storeGet sys.store i = none) :
    FL.delete_agent sys i = (.error (.notFound i), sys) := by
  unfold FL.delete_agent
  rw [h]

/-- `agent_manager.delete_agent` on an existing record: succeeds and deletes
the record. -/
theorem AM.delete_agent_found (sys : Sys) (i : String) (a : AgentRecord)
    (ha : storeGet sys.store i = some a) :
    (AM.delete_agent sys i).1 = .ok true ∧
    (AM.delete_agent sys i).2.store = storeDelete sys.store i := by
  unfold AM.delete_agent
  rw [ha]
  cases hcm : a.container_mode <;> simp [hcm, containerCleanup_store]

/-- `fletcher.delete_agent` on an existing record: succeeds and deletes the
record. -/
theorem FL.delete_agent_found_fl (sys : Sys) (i : String) (a : AgentRecord)
    (ha : storeGet sys.store i = some a) :
    (FL.delete_agent sys i).1 = .ok true ∧
    (FL.delete_agent sys i).2.store = storeDelete sys.store i := by
  unfold FL.delete_agent
  rw [ha]
  simp [containerCleanup_store]

/-- C7 as amended: the container backend's start keeps the teardown contract —
preflight failures (docker missing, daemon down, image build failure) change
nothing and raise a RuntimeError, and on any failure no container with the
newly created container id remains (a post-creation failure removes the
created container) — while the session backend raises a RuntimeError on
failure but does not tear down a created tmux session: after a post-creation
failure the session remains. -/
theorem c7_amended_backend_start (sys : Sys) (env : SpawnEnv) (i : String)
    (hfresh : ∀ c ∈ sys.containers, c.cid ≠ env.newContainerId) :
    (env.dockerAvailable = false →
       ContainerAgentProcess.spawn_interactive sys env i =
         (.error (.runtimeErr "Docker not found"), sys)) ∧
    (env.dockerAvailable = true → env.dockerRunning = false →
       ContainerAgentProcess.spawn_interactive sys env i =
         (.error (.runtimeErr "Docker daemon is not running"), sys)) ∧
    (env.dockerAvailable = true → env.dockerRunning = true → env.imageOk = false →
       ContainerAgentProcess.spawn_interactive sys env i =
         (.error (.runtimeErr "Failed to build agent Docker image"), sys)) ∧
    (∀ e, (ContainerAgentProcess.spawn_interactive sys env i).1 = .error e →
       (∃ m, e = .runtimeErr m) ∧
       ∀ c ∈ (ContainerAgentProcess.spawn_interactive sys env i).2.containers,
         c.cid ≠ env.newContainerId) ∧
    (∀ e, (AgentProcess.spawn_interactive sys env i).1 = .error e →
       ∃ m, e = .runtimeErr m) ∧
    (env.tmuxAvailable = true → env.newSessionOk = true → env.startKeysOk = false →
       (AgentProcess.spawn_interactive sys env i).1 =
         .error (.runtimeErr "Failed to spawn agent in tmux") ∧
       sessionName i ∈ (AgentProcess.spawn_interactive sys env i).2.tmux) := by
  refine ⟨?_, ?_, ?_, ?_, ?_, ?_⟩
  · intro h
    unfold ContainerAgentProcess.spawn_interactive
    simp [h]
  · intro h1 h2
    unfold ContainerAgentProcess.spawn_interactive
    simp [h1, h2]
  · intro h1 h2 h3
    unfold ContainerAgentProcess.spawn_interactive
    simp [h1, h2, h3]
  · intro e he
    cases hda : env.dockerAvailable with
    | false =>
      have hres : ContainerAgentProcess.spawn_interactive sys env i =
          (.error (.runtimeErr "Docker not found"), sys) := by
        unfold ContainerAgentProcess.spawn_interactive
        simp [hda]
      rw [hres] at he ⊢
      simp only [Except.error.injEq] at he
      subst he
      exact ⟨⟨_, rfl⟩, hfresh⟩
    | true =>
      cases hdr : env.dockerRunning with
      | false =>
        have hres : ContainerAgentProcess.spawn_interactive sys env i =
            (.error (.runtimeErr "Docker daemon is not running"), sys) := by
          unfold ContainerAgentProcess.spawn_interactive
          simp [hda, hdr]
        rw [hres] at he ⊢
        simp only [Except.error.injEq] at he
        subst he
        exact ⟨⟨_, rfl⟩, hfresh⟩
      | true =>
        cases him : env.imageOk with
        | false =>
          have hres : ContainerAgentProcess.spawn_interactive sys env i =
              (.error (.runtimeErr "Failed to build agent Docker image"), sys) := by
            unfold ContainerAgentProcess.spawn_interactive
            simp [hda, hdr, him]
          rw [hres] at he ⊢
          simp only [Except.error.injEq] at he
          subst he
          exact ⟨⟨_, rfl⟩, hfresh⟩
        | true =>
          cases hcr : env.createOk with
          | false =>
            have hres : ContainerAgentProcess.spawn_interactive sys env i =
                (.error (.runtimeErr
                   "Failed to spawn agent in container: Failed to create container"),
                 if container_exists sys (sessionName i) = true then
                   (remove_container sys (sessionName i) true).1
                 else sys) := by
              unfold ContainerAgentProcess.spawn_interactive
              simp [hda, hdr, him, hcr]
            rw [hres] at he ⊢
            simp only [Except.error.injEq] at he
            subst he
            refine ⟨⟨_, rfl⟩, ?_⟩
            intro c hc
            split at hc
            · exact hfresh c (mem_remove_container hc)
            · exact hfresh c hc
          | true =>
            cases hex : env.execOk with
            | true =>
              have hres : (ContainerAgentProcess.spawn_interactive sys env i).1 =
                  .ok env.newContainerId := by
                unfold ContainerAgentProcess.spawn_interactive
                simp [hda, hdr, him, hcr, hex]
              rw [hres] at he
              cases he
            | false =>
              have hres : ContainerAgentProcess.spawn_interactive sys env i =
                  (.error (.runtimeErr
                     "Failed to spawn agent in container: Failed to start Claude in container"),
                   (remove_container
                     (Sys.mk
                       (if container_exists sys (sessionName i) = true then
                          (remove_container sys (sessionName i) true).1
                        else sys).store
                       (if container_exists sys (sessionName i) = true then
                          (remove_container sys (sessionName i) true).1
                        else sys).dirs
                       (if container_exists sys (sessionName i) = true then
                          (remove_container sys (sessionName i) true).1
                        else sys).tmux
                       (Container.mk (sessionName i) env.newContainerId true ::
                        (if container_exists sys (sessionName i) = true then
                           (remove_container sys (sessionName i) true).1
                         else sys).containers)
                       (if container_exists sys (sessionName i) = true then
                          (remove_container sys (sessionName i) true).1
                        else sys).procs
                       (if container_exists sys (sessionName i) = true then
                          (remove_container sys (sessionName i) true).1
                        else sys).psFails
                       (if container_exists sys (sessionName i) = true then
                          (remove_container sys (sessionName i) true).1
                        else sys).inspectFails)
                     env.newContainerId true).1) := by
                unfold ContainerAgentProcess.spawn_interactive
                simp [hda, hdr, him, hcr, hex]
              rw [hres] at he ⊢
              simp only [Except.error.injEq] at he
              subst he
              refine ⟨⟨_, rfl⟩, ?_⟩
              intro c hc
              intro hcid
              refine remove_container_cid_gone ?_ hc (Or.inr hcid)
              exact ⟨Container.mk (sessionName i) env.newContainerId true,
                List.mem_cons_self _ _, Or.inr rfl⟩
  · intro e he
    cases htm : env.tmuxAvailable with
    | false =>
      have hres : (AgentProcess.spawn_interactive sys env i).1 =
          .error (.runtimeErr "tmux not found") := by
        unfold AgentProcess.spawn_interactive
        simp [htm]
      rw [hres] at he
      simp only [Except.error.injEq] at he
      subst he
      exact ⟨_, rfl⟩
    | true =>
      cases hns : env.newSessionOk with
      | false =>
        have hres : (AgentProcess.spawn_interactive sys env i).1 =
            .error (.runtimeErr "Failed to spawn agent in tmux") := by
          unfold AgentProcess.spawn_interactive
          simp [htm, hns]
        rw [hres] at he
        simp only [Except.error.injEq] at he
        subst he
        exact ⟨_, rfl⟩
      | true =>
        cases hsk : env.startKeysOk with
        | false =>
          have hres : (AgentProcess.spawn_interactive sys env i).1 =
              .error (.runtimeErr "Failed to spawn agent in tmux") := by
            unfold AgentProcess.spawn_interactive
            simp [htm, hns, hsk]
          rw [hres] at he
          simp only [Except.error.injEq] at he
          subst he
          exact ⟨_, rfl⟩
        | true =>
          cases hlp : env.listPanesOk with
          | false =>
            have hres : (AgentProcess.spawn_interactive sys env i).1 =
                .error (.runtimeErr "Failed to spawn agent in tmux") := by
              unfold AgentProcess.spawn_interactive
              simp [htm, hns, hsk, hlp]
            rw [hres] at he
            simp only [Except.error.injEq] at he
            subst he
            exact ⟨_, rfl⟩
          | true =>
            have hres : (AgentProcess.spawn_interactive sys env i).1 =
                .ok (.int (env.childPid.getD env.panePid)) := by
              unfold AgentProcess.spawn_interactive
              simp [htm, hns, hsk, hlp]
            rw [hres] at he
            cases he
  · intro h1 h2 h3
    have hres : AgentProcess.spawn_interactive sys env i =
        (.error (.runtimeErr "Failed to spawn agent in tmux"),
         Sys.mk sys.store sys.dirs (sessionName i :: tmuxKill sys.tmux (sessionName i))
           sys.containers sys.procs sys.psFails sys.inspectFails) := by
      unfold AgentProcess.spawn_interactive
      simp [h1, h2, h3]
    rw [hres]
    exact ⟨rfl, List.mem_cons_self _ _⟩

theorem c7_amended_backend_start_witness :
    (∀ c ∈ sysEmpty.containers, c.cid ≠ envLeak.newContainerId) ∧
    (envNoDocker.dockerAvailable = false ∧
       ContainerAgentProcess.spawn_interactive sysEmpty envNoDocker "b2" =
         (.error (.runtimeErr "Docker not found"), sysEmpty)) ∧
    ((ContainerAgentProcess.spawn_interactive sysEmpty envNoExec "b2").1 =
         .error (.runtimeErr
           "Failed to spawn agent in container: Failed to start Claude in container") ∧
       (∃ m, Err.runtimeErr
           "Failed to spawn agent in container: Failed to start Claude in container" =
           .runtimeErr m) ∧
       ∀ c ∈ (ContainerAgentProcess.spawn_interactive sysEmpty envNoExec "b2").2.containers,
         c.cid ≠ envNoExec.newContainerId) ∧
    (envLeak.tmuxAvailable = true ∧ envLeak.newSessionOk = true ∧
       envLeak.startKeysOk = false ∧
       (AgentProcess.spawn_interactive sysEmpty envLeak "b2").1 =
         .error (.runtimeErr "Failed to spawn agent in tmux") ∧
       sessionName "b2" ∈ (AgentProcess.spawn_interactive sysEmpty envLeak "b2").2.tmux) :=
  ⟨by decide,
   ⟨by decide,
    (c7_amended_backend_start sysEmpty envNoDocker "b2" (by decide)).1 (by decide)⟩,
   ⟨by rfl,
    ((c7_amended_backend_start sysEmpty envNoExec "b2" (by decide)).2.2.2.1
      (.runtimeErr "Failed to spawn agent in container: Failed to start Claude in container")
      (by rfl)).1,
    ((c7_amended_backend_start sysEmpty envNoExec "b2" (by decide)).2.2.2.1
      (.runtimeErr "Failed to spawn agent in container: Failed to start Claude in container")
      (by rfl)).2⟩,
   ⟨by decide, by decide, by decide,
    ((c7_amended_backend_start sysEmpty envLeak "b2" (by decide)).2.2.2.2.2
      (by decide) (by decide) (by decide)).1,
    ((c7_amended_backend_start sysEmpty envLeak "b2" (by decide)).2.2.2.2.2
      (by decide) (by decide) (by decide)).2⟩⟩

/-- Counterexample to C4 as stated: stopping an agent twice in a row with
`remove_workdir = true` (the default) raises `NotFoundError` on the second
call — the "no error the second time" guarantee is not limited to `delete`. -/
theorem c4_counterexample :
    (AM.stop_agent exSys1 5 "a1" true).1 = .ok true ∧
    (AM.stop_agent (AM.stop_agent exSys1 5 "a1" true).2 6 "a1" true).1 =
      .error (.notFound "a1") := by
  constructor
  · rfl
  · rfl

/-- C4 as amended: backend `stop`/`remove` on a missing unit return `False`
and raise nothing; `stop` and `delete` never fail while the record exists —
including in worlds where the backend unit is already externally gone — and
`stop(remove_workdir=false)` is idempotent; but once the record itself is
gone (after `delete` **or** after `stop(remove_workdir=true)`), a second
`stop` or `delete` fails with `NotFoundError` — the exception is not limited
to a second `delete`. -/
theorem c4_amended_idempotency (sys : Sys) (now : Nat) (i : String) (a : AgentRecord)
    (ha : storeGet sys.store i = some a) :
    (∀ ref, ctFind sys.containers ref = none →
       stop_container sys ref = (sys, false) ∧
       remove_container sys ref true = (sys, false)) ∧
    ((AM.stop_agent sys now i true).1 = .ok true ∧
     (AM.stop_agent sys now i false).1 = .ok true ∧
     (AM.delete_agent sys i).1 = .ok true ∧
     (FL.stop_agent sys now i true).1 = .ok true ∧
     (FL.stop_agent sys now i false).1 = .ok true ∧
     (FL.delete_agent sys i).1 = .ok true) ∧
    ((AM.stop_agent (AM.stop_agent sys now i false).2 now i false).1 = .ok true ∧
     (FL.stop_agent (FL.stop_agent sys now i false).2 now i false).1 = .ok true) ∧
    ((AM.stop_agent (AM.stop_agent sys now i true).2 now i true).1 = .error (.notFound i) ∧
     (AM.delete_agent (AM.delete_agent sys i).2 i).1 = .error (.notFound i) ∧
     (AM.stop_agent (AM.delete_agent sys i).2 now i true).1 = .error (.notFound i) ∧
     (FL.stop_agent (FL.stop_agent sys now i true).2 now i true).1 = .error (.notFound i) ∧
     (FL.delete_agent (FL.delete_agent sys i).2 i).1 = .error (.notFound i)) := by
  have hamt := AM.stop_agent_found sys now i a ha
  have hflt := FL.stop_agent_found_fl sys now i a ha
  have hamd := AM.delete_agent_found sys i a ha
  have hfld := FL.delete_agent_found_fl sys i a ha
  refine ⟨?_, ⟨by rw [hamt.1], by rw [hamt.2], hamd.1, by rw [hflt.1], by rw [hflt.2],
    hfld.1⟩, ⟨?_, ?_⟩, ⟨?_, ?_, ?_, ?_, ?_⟩⟩
  · intro ref href
    constructor
    · unfold stop_container
      rw [href]
    · unfold remove_container
      rw [href]
  · have hget : storeGet (AM.stop_agent sys now i false).2.store i =
        some (touch (withStatus a .stopped) now) := by
      rw [hamt.2]
      simp only [withStore_store]
      rw [storeGet_setStatus_self, stopBackendCleanup_store, ha]
      rfl
    rw [(AM.stop_agent_found _ now i _ hget).2]
  · have hget : storeGet (FL.stop_agent sys now i false).2.store i =
        some (touch (withStatus a .stopped) now) := by
      rw [hflt.2]
      simp only [withStore_store]
      rw [storeGet_setStatus_self, containerCleanup_store, ha]
      rfl
    rw [(FL.stop_agent_found_fl _ now i _ hget).2]
  · have hget : storeGet (AM.stop_agent sys now i true).2.store i = none := by
      rw [hamt.1]
      simp only [withStore_store]
      exact storeGet_delete_self _ _
    rw [AM.stop_agent_notFound _ now i true hget]
  · have hget : storeGet (AM.delete_agent sys i).2.store i = none := by
      rw [hamd.2]
      exact storeGet_delete_self _ _
    rw [AM.delete_agent_notFound _ i hget]
  · have hget : storeGet (AM.delete_agent sys i).2.store i = none := by
      rw [hamd.2]
      exact storeGet_delete_self _ _
    rw [AM.stop_agent_notFound _ now i true hget]
  · have hget : storeGet (FL.stop_agent sys now i true).2.store i = none := by
      rw [hflt.1]
      simp only [withStore_store]
      exact storeGet_delete_self _ _
    rw [FL.stop_agent_notFound_fl _ now i true hget]
  · have hget : storeGet (FL.delete_agent sys i).2.store i = none := by
      rw [hfld.2]
      exact storeGet_delete_self _ _
    rw [FL.delete_agent_notFound_fl _ i hget]

theorem c4_amended_idempotency_witness :
    storeGet sysW1.store "a1" = some recW1 ∧
    ((ctFind sysW1.containers "nope" = none ∧
        stop_container sysW1 "nope" = (sysW1, false) ∧
        remove_container sysW1 "nope" true = (sysW1, false)) ∧
     ((AM.stop_agent sysW1 5 "a1" true).1 = .ok true ∧
      (AM.stop_agent sysW1 5 "a1" false).1 = .ok true ∧
      (AM.delete_agent sysW1 "a1").1 = .ok true ∧
      (FL.stop_agent sysW1 5 "a1" true).1 = .ok true ∧
      (FL.stop_agent sysW1 5 "a1" false).1 = .ok true ∧
      (FL.delete_agent sysW1 "a1").1 = .ok true) ∧
     ((AM.stop_agent (AM.stop_agent sysW1 5 "a1" false).2 5 "a1" false).1 = .ok true ∧
      (FL.stop_agent (FL.stop_agent sysW1 5 "a1" false).2 5 "a1" false).1 = .ok true) ∧
     ((AM.stop_agent (AM.stop_agent sysW1 5 "a1" true).2 5 "a1" true).1 =
        .error (.notFound "a1") ∧
      (AM.delete_agent (AM.delete_agent sysW1 "a1").2 "a1").1 = .error (.notFound "a1") ∧
      (AM.stop_agent (AM.delete_agent sysW1 "a1").2 5 "a1" true).1 =
        .error (.notFound "a1") ∧
      (FL.stop_agent (FL.stop_agent sysW1 5 "a1" true).2 5 "a1" true).1 =
        .error (.notFound "a1") ∧
      (FL.delete_agent (FL.delete_agent sysW1 "a1").2 "a1").1 =
        .error (.notFound "a1"))) :=
  ⟨by decide,
   ⟨by decide, ((c4_amended_idempotency sysW1 5 "a1" recW1 (by decide)).1 "nope" (by decide)).1,
    ((c4_amended_idempotency sysW1 5 "a1" recW1 (by decide)).1 "nope" (by decide)).2⟩,
   (c4_amended_idempotency sysW1 5 "a1" recW1 (by decide)).2.1,
   (c4_amended_idempotency sysW1 5 "a1" recW1 (by decide)).2.2.1,
   (c4_amended_idempotency sysW1 5 "a1" recW1 (by decide)).2.2.2⟩

/-- Counterexample to C5 as stated: `clean_agents(status='stopped')` on a
stopped session-mode agent whose tmux session and pane process are still
alive removes the record and the working directory and counts the agent, but
does not remove the backend unit — the tmux session and the process survive. -/
theorem c5_counterexample :
    (AM.clean_agents exSysS (fun _ => false) (some .stopped)).1 = 1 ∧
    storeGet (AM.clean_agents exSysS (fun _ => false) (some .stopped)).2.store "s1" = none ∧
    (AM.clean_agents exSysS (fun _ => false) (some .stopped)).2.dirs = [] ∧
    (AM.clean_agents exSysS (fun _ => false) (some .stopped)).2.tmux = ["agent-s1"] ∧
    (AM.clean_agents exSysS (fun _ => false) (some .stopped)).2.procs = [12] := by
  refine ⟨by decide, by decide, by decide, by decide, by decide⟩

/-- C5 as amended: in both variants, `clean_agents(status='stopped')` counts
and removes (record and working directory) exactly the agents stored as
`stopped` at call time whose directory removal does not fail — a failure on
one agent skips only that agent, never the rest of the batch — and leaves
every non-stopped agent's record and directory untouched.  The docker branch
purges the container of a stopped agent (in `agent_manager` only for
container-mode records, in fletcher for every record), but no tmux session
and no process is ever killed: the backend unit of a session-mode agent
survives its cleaning. -/
theorem c5_amended_clean_semantics (sys : Sys) (failP : String → Bool)
    (hid : (List.map (fun a => a.id) sys.store).Nodup)
    (hwd : (List.map (fun a => a.working_dir) sys.store).Nodup)
    (hps : sys.psFails = false) :
    ((AM.clean_agents sys failP (some .stopped)).1 =
       ((storeList sys.store (some Status.stopped)).filter (remPred sys.dirs failP)).length ∧
     (∀ a ∈ (storeList sys.store (some Status.stopped)).filter (remPred sys.dirs failP),
        storeGet (AM.clean_agents sys failP (some .stopped)).2.store a.id = none ∧
        a.working_dir ∉ (AM.clean_agents sys failP (some .stopped)).2.dirs) ∧
     (∀ b ∈ sys.store, b.status ≠ Status.stopped →
        b ∈ (AM.clean_agents sys failP (some .stopped)).2.store ∧
        (b.working_dir ∈ sys.dirs →
           b.working_dir ∈ (AM.clean_agents sys failP (some .stopped)).2.dirs)) ∧
     (AM.clean_agents sys failP (some .stopped)).2.tmux = sys.tmux ∧
     (AM.clean_agents sys failP (some .stopped)).2.procs = sys.procs ∧
     (∀ a ∈ storeList sys.store (some Status.stopped), a.container_mode = true →
        ∀ c ∈ (AM.clean_agents sys failP (some .stopped)).2.containers,
          c.name ≠ sessionName a.id)) ∧
    ((FL.clean_agents sys failP (some .stopped)).1 =
       ((storeList sys.store (some Status.stopped)).filter (remPred sys.dirs failP)).length ∧
     (∀ a ∈ (storeList sys.store (some Status.stopped)).filter (remPred sys.dirs failP),
        storeGet (FL.clean_agents sys failP (some .stopped)).2.store a.id = none ∧
        a.working_dir ∉ (FL.clean_agents sys failP (some .stopped)).2.dirs) ∧
     (∀ b ∈ sys.store, b.status ≠ Status.stopped →
        b ∈ (FL.clean_agents sys failP (some .stopped)).2.store ∧
        (b.working_dir ∈ sys.dirs →
           b.working_dir ∈ (FL.clean_agents sys failP (some .stopped)).2.dirs)) ∧
     (FL.clean_agents sys failP (some .stopped)).2.tmux = sys.tmux ∧
     (FL.clean_agents sys failP (some .stopped)).2.procs = sys.procs ∧
     (∀ a ∈ storeList sys.store (some Status.stopped),
        ∀ c ∈ (FL.clean_agents sys failP (some .stopped)).2.containers,
          c.name ≠ sessionName a.id)) := by
  have hAM := clean_agents_general (fun a => a.container_mode) sys failP hid hwd hps
  have hFL := clean_agents_general (fun _ => true) sys failP hid hwd hps
  exact ⟨⟨hAM.1, hAM.2.1, hAM.2.2.1, hAM.2.2.2.1, hAM.2.2.2.2.1, hAM.2.2.2.2.2⟩,
         ⟨hFL.1, hFL.2.1, hFL.2.2.1, hFL.2.2.2.1, hFL.2.2.2.2.1,
          fun a ha => hFL.2.2.2.2.2 a ha rfl⟩⟩

/-- Witness for the amended C5 on `sysW5`: both cleans count 2, remove the
stopped agents' records and directories, keep the running agent's record, keep
the tmux session and the pane process of the cleaned session-mode agent, and
purge the container of the cleaned container-mode agent. -/
theorem c5_amended_clean_semantics_witness :
    ((List.map (fun a => a.id) sysW5.store).Nodup ∧
     (List.map (fun a => a.working_dir) sysW5.store).Nodup ∧
     sysW5.psFails = false) ∧
    (AM.clean_agents sysW5 (fun _ => false) (some .stopped)).1 = 2 ∧
    (storeGet (AM.clean_agents sysW5 (fun _ => false) (some .stopped)).2.store exRecS.id = none ∧
     exRecS.working_dir ∉ (AM.clean_agents sysW5 (fun _ => false) (some .stopped)).2.dirs) ∧
    exRec1 ∈ (AM.clean_agents sysW5 (fun _ => false) (some .stopped)).2.store ∧
    (AM.clean_agents sysW5 (fun _ => false) (some .stopped)).2.tmux = ["agent-s1"] ∧
    (AM.clean_agents sysW5 (fun _ => false) (some .stopped)).2.procs = [12] ∧
    (∀ c ∈ (AM.clean_agents sysW5 (fun _ => false) (some .stopped)).2.containers,
       c.name ≠ sessionName recW5.id) ∧
    (FL.clean_agents sysW5 (fun _ => false) (some .stopped)).1 = 2 ∧
    (FL.clean_agents sysW5 (fun _ => false) (some .stopped)).2.tmux = ["agent-s1"] := by
  have h := c5_amended_clean_semantics sysW5 (fun _ => false) (by decide) (by decide) rfl
  exact ⟨⟨by decide, by decide, rfl⟩,
         h.1.1.trans (by decide),
         h.1.2.1 exRecS (by decide),
         (h.1.2.2.1 exRec1 (by decide) (by decide)).1,
         h.1.2.2.2.1,
         h.1.2.2.2.2.1,
         h.1.2.2.2.2.2 recW5 (by decide) rfl,
         h.2.1.trans (by decide),
         h.2.2.2.2.1⟩

/-- Counterexample to C6 as stated: the fletcher variant's `spawn_agent`
performs no URL validation — called with the malformed URL `"not-a-url"` it
creates an agent record first, and when the clone fails it raises a
`RuntimeError` (not a ValidationError), leaving the created record in the
store with status `error`. -/
theorem c6_counterexample :
    (FL.spawn_agent sysEmpty envClone "not-a-url").1 =
      .error (.runtimeErr "Failed to spawn agent: git clone failed") ∧
    storeGet (FL.spawn_agent sysEmpty envClone "not-a-url").2.store "b2" =
      some (AgentRecord.mk "b2" "not-a-url" ".agents/b2" none .error true 9 9) := by
  constructor
  · rfl
  · decide

/-- C6 as amended: in the `agent_manager` variant, `spawn` on a malformed URL
(with the assistant CLI available) fails with ValueError — the spec's
ValidationError — before any record or working directory is created: the
state comes back unchanged.  The fletcher variant's `Manager.spawn` performs
no URL validation (its CLI validates before calling): it creates the working
directory and the record first, and when the clone of the malformed URL fails
it marks that record `error`, removes the directory, and raises a
RuntimeError. -/
theorem c6_amended_validation (sys : Sys) (env : SpawnEnv) (url : String)
    (hcli : env.cliAvailable = true) (hurl : validate_repo_url url = false) :
    (∀ uc, AM.spawn_agent sys env url uc =
       (.error (.valueErr ("Invalid repository URL: " ++ url)), sys)) ∧
    (env.cloneOk = false →
       SpawnFailSpec (FL.spawn_agent sys env url) env.agent_id
         (get_agent_working_dir env.agent_id) ∧
       (storeGet sys.store env.agent_id = none →
          storeGet (FL.spawn_agent sys env url).2.store env.agent_id =
            some (AgentRecord.mk env.agent_id url (get_agent_working_dir env.agent_id)
              none .error true env.now env.now))) := by
  constructor
  · intro uc
    unfold AM.spawn_agent
    simp [hcli, hurl]
  · intro hclone
    have hres : FL.spawn_agent sys env url =
        match storeCreate (sys.withDirs (dirAdd sys.dirs (get_agent_working_dir env.agent_id))).store
            env.agent_id url (get_agent_working_dir env.agent_id) .spawning true env.now with
        | none =>
          spawnFail (sys.withDirs (dirAdd sys.dirs (get_agent_working_dir env.agent_id)))
            env.agent_id (get_agent_working_dir env.agent_id) env.now
            (.duplicateId env.agent_id)
        | some st1 =>
          spawnFail ((sys.withDirs (dirAdd sys.dirs (get_agent_working_dir env.agent_id))).withStore st1)
            env.agent_id (get_agent_working_dir env.agent_id) env.now
            (.runtimeErr "git clone failed") := by
      unfold FL.spawn_agent
      cases hcr : storeCreate (sys.withDirs (dirAdd sys.dirs (get_agent_working_dir env.agent_id))).store
          env.agent_id url (get_agent_working_dir env.agent_id) .spawning true env.now with
      | none => rfl
      | some st1 => simp [hclone]
    constructor
    · rw [hres]
      cases hcr : storeCreate (sys.withDirs (dirAdd sys.dirs (get_agent_working_dir env.agent_id))).store
          env.agent_id url (get_agent_working_dir env.agent_id) .spawning true env.now with
      | none => exact spawnFail_spec _ _ _ _ _
      | some st1 => exact spawnFail_spec _ _ _ _ _
    · intro hfresh
      have hcr : storeCreate (sys.withDirs (dirAdd sys.dirs (get_agent_working_dir env.agent_id))).store
          env.agent_id url (get_agent_working_dir env.agent_id) .spawning true env.now =
          some (AgentRecord.mk env.agent_id url (get_agent_working_dir env.agent_id)
            none .spawning true env.now env.now :: sys.store) := by
        unfold storeCreate
        simp only [withDirs_store]
        rw [hfresh]
      rw [hres, hcr]
      unfold spawnFail
      simp only [withStore_store, withDirs_store]
      rw [storeGet_setStatus_self]
      rw [show storeGet (AgentRecord.mk env.agent_id url (get_agent_working_dir env.agent_id)
            none .spawning true env.now env.now :: sys.store) env.agent_id =
          some (AgentRecord.mk env.agent_id url (get_agent_working_dir env.agent_id)
            none .spawning true env.now env.now) from by simp [storeGet]]
      rfl

theorem c6_amended_validation_witness :
    (envClone.cliAvailable = true ∧ validate_repo_url "not-a-url" = false) ∧
    AM.spawn_agent sysEmpty envClone "not-a-url" false =
      (.error (.valueErr "Invalid repository URL: not-a-url"), sysEmpty) ∧
    (envClone.cloneOk = false ∧
       SpawnFailSpec (FL.spawn_agent sysEmpty envClone "not-a-url") envClone.agent_id
         (get_agent_working_dir envClone.agent_id) ∧
       (storeGet sysEmpty.store envClone.agent_id = none ∧
          storeGet (FL.spawn_agent sysEmpty envClone "not-a-url").2.store envClone.agent_id =
            some (AgentRecord.mk envClone.agent_id "not-a-url"
              (get_agent_working_dir envClone.agent_id) none .error true envClone.now
              envClone.now))) :=
  ⟨⟨by decide, by decide⟩,
   (c6_amended_validation sysEmpty envClone "not-a-url" (by decide) (by decide)).1 false,
   ⟨by decide,
    ((c6_amended_validation sysEmpty envClone "not-a-url" (by decide) (by decide)).2
      (by decide)).1,
    ⟨by decide,
     ((c6_amended_validation sysEmpty envClone "not-a-url" (by decide) (by decide)).2
       (by decide)).2 (by decide)⟩⟩⟩

/-- Counterexample to C7 as stated: when the session backend's
`spawn_interactive` fails after creating the tmux session (here: the
send-keys step that launches the assistant fails), it raises the spawn error
but leaves the created session behind — the partially created resource is not
torn down. -/
theorem c7_counterexample :
    (AgentProcess.spawn_interactive sysEmpty envLeak "b2").1 =
      .error (.runtimeErr "Failed to spawn agent in tmux") ∧
    (AgentProcess.spawn_interactive sysEmpty envLeak "b2").2.tmux = ["agent-b2"] := by
  constructor
  · rfl
  · decide

end Fletcher
